import Mathlib

set_option maxRecDepth 10000

/-!
Verification of the Build-Command Execution & Output Interpretation Engine
of the softpack-mcp repository, as a shallow embedding in Lean 4.

The definitions below are translated from
`softpack_mcp/services/spack_service.py` and
`softpack_mcp/services/session_manager.py`.  Python's `None`-able values
become `Option`, raised exceptions become `Except.error` carrying `str(e)`,
and the environment (the spawned subprocess, the filesystem) is passed in
explicitly as data, so that every definition is executable and total.
Python functions that can raise are therefore modelled as total functions
into `Except`; "never raises" claims correspond to a function landing in
plain (non-`Except`) result types.
-/

namespace Softpack

/-- Python truthiness of an optional string (`if s:`): `None` and `""` are falsy. -/
def isTruthy : Option String → Bool
  | none => false
  | some s => !(s == "")

/-! ## Command Runner (`SpackService._run_command_base`, spack_service.py:51-119) -/

/-- The dict returned by `_run_command_base`. -/
structure ExecResult where
  returncode : Int
  stdout : String
  stderr : String
  success : Bool
deriving Repr, DecidableEq

/-- What the environment does when `_run_command_base` spawns a process:
either the process completes (with exit code and decoded output), or
`asyncio.wait_for` times out, or `create_subprocess_exec` raises an
exception whose `str(e)` is `msg`. -/
inductive SpawnOutcome where
  | completed (returncode : Int) (stdout stderr : String)
  | timedOut
  | raised (msg : String)
deriving Repr, DecidableEq

/-- `SpackService._run_command_base` (spack_service.py:51-119).  All three
branches of the Python `try/except` return a result dict; no exception
escapes, which the embedding reflects by being a total function. -/
def run_command_base (timeout : Nat) (outcome : SpawnOutcome) : ExecResult :=
  match outcome with
  | .completed rc out err =>
      { returncode := rc, stdout := out, stderr := err, success := rc == 0 }
  | .timedOut =>
      { returncode := -1, stdout := ""
        stderr := "Command timed out after " ++ toString timeout ++ " seconds"
        success := false }
  | .raised msg =>
      { returncode := -1, stdout := "", stderr := msg, success := false }

/-! ## Session manager (`session_manager.py`) -/

/-- The state `SessionManager` reads when resolving a session:
`sessions` is the in-memory dict (session id to session directory), and
`fsRecoverable sid` tells whether `/tmp/{sid}` exists together with its
`repos.yaml` (the filesystem-recovery branch of `get_session_dir`,
session_manager.py:95-101). -/
structure SessionStore where
  sessions : List (String × String)
  fsRecoverable : String → Bool

/-- `SessionManager.get_session_dir` (session_manager.py:82-102). -/
def get_session_dir (st : SessionStore) (session_id : String) : Option String :=
  match st.sessions.lookup session_id with
  | some d => some d
  | none => if st.fsRecoverable session_id then some ("/tmp/" ++ session_id) else none

/-- The fixed sandbox-invocation argument list built by
`SessionManager.get_singularity_command_prefix`
(session_manager.py:181-193): the container-exec tool, the bind mounts,
and the image path. -/
def singularityCommandParts (session_id : String) : List String :=
  ["singularity", "run",
   "--bind", "/usr/bin/zsh",
   "--bind", "/mnt/data",
   "--bind", "/tmp/" ++ session_id ++ "/repos.yaml:/home/ubuntu/.spack/repos.yaml",
   "--bind", "/tmp/" ++ session_id ++ "/packages:/home/ubuntu/r-spack-recipe-builder/packages",
   "/home/ubuntu/spack.sif"]

/-- `SessionManager.get_singularity_command_prefix`
(session_manager.py:167-193).  `Except.error` models the raised
`ValueError`.  (The name avoids the original's final word.) -/
def get_singularity_command_parts (st : SessionStore) (session_id : String) :
    Except String (List String) :=
  match get_session_dir st session_id with
  | none => .error ("Session " ++ session_id ++ " not found")
  | some _ => .ok (singularityCommandParts session_id)

/-! ## Session-aware command builder (`SpackService._run_spack_command`,
spack_service.py:140-172) -/

/-- The argument-vector rewriting done by `_run_spack_command` before it
delegates to `_run_command_base` (spack_service.py:160-170).  Returns the
effective command, or `Except.error` for the re-raised `ValueError` on an
unresolvable session (and for the `IndexError` Python would raise reading
`command[0]` of an empty vector). -/
def effective_command (st : SessionStore) (spack_cmd : String)
    (command : List String) (session_id : Option String) :
    Except String (List String) :=
  if isTruthy session_id then
    match get_singularity_command_parts st (session_id.getD "") with
    | .error e => .error e
    | .ok parts =>
        match command with
        | [] => .error "list index out of range"
        | c0 :: rest => if c0 == spack_cmd then .ok (parts ++ rest) else .ok (parts ++ command)
  else .ok command

/-- `SpackService._run_spack_command` (spack_service.py:140-172), with the
eventual `_run_command_base` call abstracted as the oracle `runBase`
applied to the effective command. -/
def run_spack_command (st : SessionStore) (runBase : List String → ExecResult)
    (spack_cmd : String) (command : List String) (session_id : Option String) :
    Except String ExecResult :=
  match effective_command st spack_cmd command session_id with
  | .error e => .error e
  | .ok c => .ok (runBase c)

/-! ## Digest extractor (`SpackService._extract_install_digest`,
spack_service.py:174-227, and `_extract_install_digest_robust`,
spack_service.py:229-292)

The two Python regular expressions are modelled by direct character
scanners with the exact semantics of `re.finditer` on these patterns
(leftmost, non-overlapping; greedy classes; resume one character further
on a failed attempt, resume at the match end on success). -/

/-- Python's `\s` class (ASCII fragment; the build-tool output is ASCII). -/
def pyIsSpace (c : Char) : Bool := c.isWhitespace

/-- Python's `str.isalnum` (ASCII fragment). -/
def pyIsAlnum (c : Char) : Bool := c.isAlphanum

/-! Python string primitives, implemented over `List Char` so that the
kernel can evaluate them (the corresponding `String` built-ins are
opaque externs). -/

/-- Python `str.strip()` with no argument: remove leading and trailing
whitespace. -/
def pyStrip (s : String) : String :=
  String.mk (((s.toList.dropWhile pyIsSpace).reverse.dropWhile pyIsSpace).reverse)

/-- Python `str.startswith(p)`. -/
def pyStartsWith (s p : String) : Bool := p.toList.isPrefixOf s.toList

/-- Python `c in s` for a single character. -/
def pyContains (s : String) (c : Char) : Bool := s.toList.contains c

/-- Predicate holding of every character of `s`. -/
def pyAll (s : String) (p : Char → Bool) : Bool := s.toList.all p

/-- Worker for `pySplitOn` (fuel-structural; each step consumes at least
one character). -/
def splitOnListGo (sep : List Char) (fuel : Nat) (acc : List Char)
    (cs : List Char) : List (List Char) :=
  match fuel, cs with
  | 0, _ => [acc.reverse]
  | _, [] => [acc.reverse]
  | fuel + 1, c :: rest =>
      if sep.isPrefixOf (c :: rest) then
        acc.reverse :: splitOnListGo sep fuel [] ((c :: rest).drop sep.length)
      else splitOnListGo sep fuel (c :: acc) rest

/-- Python `str.split(sep)` for a non-empty separator: non-overlapping,
left to right, keeping empty fields. -/
def pySplitOn (s sep : String) : List String :=
  (splitOnListGo sep.toList (s.toList.length + 1) [] s.toList).map String.mk

/-- Worker for `pyReplace` (fuel-structural). -/
def replaceListGo (old new : List Char) (fuel : Nat) (cs : List Char) : List Char :=
  match fuel, cs with
  | 0, _ => cs
  | _, [] => []
  | fuel + 1, c :: rest =>
      if old.isPrefixOf (c :: rest) then
        new ++ replaceListGo old new fuel ((c :: rest).drop old.length)
      else c :: replaceListGo old new fuel rest

/-- Python `str.replace(old, new)` for a non-empty `old`: replace all
non-overlapping occurrences, left to right. -/
def pyReplace (s old new : String) : String :=
  String.mk (replaceListGo old.toList new.toList (s.toList.length + 1) s.toList)

/-- Worker for `pySplitWs` (fuel-structural). -/
def splitWsGo (fuel : Nat) (cs : List Char) : List (List Char) :=
  match fuel with
  | 0 => []
  | fuel + 1 =>
      let cs1 := cs.dropWhile pyIsSpace
      if cs1.isEmpty then []
      else
        let w := cs1.takeWhile (fun c => !pyIsSpace c)
        w :: splitWsGo fuel (cs1.drop w.length)

/-- Python `str.split()` with no argument: split on whitespace runs,
dropping empty fields. -/
def pySplitWs (s : String) : List String :=
  (splitWsGo (s.toList.length + 1) s.toList).map String.mk

/-- `output.replace("\r\n", "\n").replace("\r", "\n")` — the normalization
both extractors apply first (spack_service.py:187, 244). -/
def pyNormalize (output : String) : String :=
  pyReplace (pyReplace output "\r\n" "\n") "\r" "\n"

/-- Positions `j` inside `token` at which the literal `/` of
`[^\s]+/([^/\s]+)` can match: `token[j] = '/'`, at least one character is
consumed before it (`j ≥ 1`), and a `[^/\s]` character follows.  Since
`token` contains no whitespace, the follower only needs to differ
from `'/'`. -/
def slashPositions (token : List Char) : List Nat :=
  (List.range token.length).filter (fun j =>
    token.getD j ' ' == '/' && decide (1 ≤ j) &&
      decide (j + 1 < token.length) && token.getD (j + 1) 'x' != '/')

/-- The backtracking of `[^\s]+/([^/\s]+)` inside one whitespace-free
token: the engine settles on the last viable `/`, captures the following
`[^/\s]+` run greedily, and the overall match ends right after the
capture.  Returns the capture and the number of characters of `token`
consumed by the match. -/
def lastSlashCapture (token : List Char) : Option (List Char × Nat) :=
  match (slashPositions token).getLast? with
  | none => none
  | some j =>
      let cap := (token.drop (j + 1)).takeWhile (fun c => c != '/')
      some (cap, j + 1 + cap.length)

/-- One attempt of `\[\+\]\s+[^\s]+/([^/\s]+)` directly after a `[+]`
already consumed: `\s+` (at least one), then the whitespace-free token,
inside which the slash capture happens.  Returns the capture and the
number of characters consumed after the `[+]`. -/
def matchSegmentAfterMarker (rest : List Char) : Option (List Char × Nat) :=
  let ws := rest.takeWhile pyIsSpace
  if ws.isEmpty then none
  else
    let r1 := rest.drop ws.length
    let token := r1.takeWhile (fun c => !pyIsSpace c)
    if token.isEmpty then none
    else
      match lastSlashCapture token with
      | none => none
      | some (cap, k) => some (cap, ws.length + k)

/-- Scan driver for `re.finditer(r"\[\+\]\s+[^\s]+/([^/\s]+)", output)`.
Structural recursion on a fuel argument (so that the kernel can evaluate
it); every step consumes at least one character, so any fuel above the
input length is enough. -/
def digestSegmentCapturesGo (fuel : Nat) (cs : List Char) : List (List Char) :=
  match fuel, cs with
  | 0, _ => []
  | _, [] => []
  | fuel + 1, '[' :: '+' :: ']' :: rest =>
      (match matchSegmentAfterMarker rest with
       | some (cap, k) =>
           if k = 0 then digestSegmentCapturesGo fuel ('+' :: ']' :: rest)
           else cap :: digestSegmentCapturesGo fuel (rest.drop k)
       | none => digestSegmentCapturesGo fuel ('+' :: ']' :: rest))
  | fuel + 1, _ :: rest => digestSegmentCapturesGo fuel rest

/-- All captures of `re.finditer(r"\[\+\]\s+[^\s]+/([^/\s]+)", output)`
in order (spack_service.py:194-195). -/
def digestSegmentCaptures (cs : List Char) : List (List Char) :=
  digestSegmentCapturesGo (cs.length + 1) cs

/-- The digest-validation block both extractors repeat verbatim
(spack_service.py:208-221 and 274-287): split the package name on `-`,
take the last field, accept it only when it is exactly 32 alphanumeric
characters. -/
def digestOfPackageName (package_name : String) : Option String :=
  let parts := pySplitOn package_name "-"
  if parts.length > 1 then
    let digest := pyStrip (parts.getLastD "")
    if digest.length == 32 && pyAll digest pyIsAlnum then some digest else none
  else none

/-- `SpackService._extract_install_digest` (spack_service.py:174-227):
normalize, find all `[+] path` markers, take the **last** match's final
path segment, and validate its trailing token.  Total: the Python body
raises nothing. -/
def extract_install_digest (output : String) : Option String :=
  let ms := digestSegmentCaptures (pyNormalize output).toList
  match ms.getLast? with
  | none => none
  | some nameChars => digestOfPackageName (pyStrip (String.mk nameChars))

/-- One attempt of `\[\+\]\s+([^\s]+)` directly after a consumed `[+]`:
`\s+` (at least one) then the greedy whitespace-free token.  When
`requireEol` is true the token must additionally be followed by a newline
or the end of input (the `$` of pattern 1 under `re.MULTILINE`).
Returns the capture and the characters consumed after the `[+]`. -/
def matchTokenAfterMarker (requireEol : Bool) (rest : List Char) :
    Option (List Char × Nat) :=
  let ws := rest.takeWhile pyIsSpace
  if ws.isEmpty then none
  else
    let r1 := rest.drop ws.length
    let token := r1.takeWhile (fun c => !pyIsSpace c)
    if token.isEmpty then none
    else if requireEol && !(match r1.getD token.length '\n' with | c => c == '\n') then none
    else some (token, ws.length + token.length)

/-- Fuel-structural scan driver for the robust patterns (same fuel
discipline as `digestSegmentCapturesGo`). -/
def tokenCapturesGo (requireEol : Bool) (fuel : Nat) (cs : List Char) :
    List (List Char) :=
  match fuel, cs with
  | 0, _ => []
  | _, [] => []
  | fuel + 1, '[' :: '+' :: ']' :: rest =>
      (match matchTokenAfterMarker requireEol rest with
       | some (cap, k) =>
           if k = 0 then tokenCapturesGo requireEol fuel ('+' :: ']' :: rest)
           else cap :: tokenCapturesGo requireEol fuel (rest.drop k)
       | none => tokenCapturesGo requireEol fuel ('+' :: ']' :: rest))
  | fuel + 1, _ :: rest => tokenCapturesGo requireEol fuel rest

/-- All captures of `re.finditer` for the robust patterns
(spack_service.py:247-257), parameterized by the end-of-line requirement. -/
def tokenCaptures (requireEol : Bool) (cs : List Char) : List (List Char) :=
  tokenCapturesGo requireEol (cs.length + 1) cs

/-- The per-pattern body of `_extract_install_digest_robust`
(spack_service.py:258-289): given the last capture, take its final path
segment (Python `split("/")[-1]` keeps empty fields), split on `-`, and
validate the last field. -/
def robustDigestOfCapture (cap : List Char) : Option String :=
  let full_path := pyStrip (String.mk cap)
  let package_name :=
    if pyContains full_path '/' then pyStrip ((pySplitOn full_path "/").getLastD "")
    else pyStrip full_path
  digestOfPackageName package_name

/-- One iteration of the robust extractor's pattern loop: if the pattern
matched at all, work on the last match. -/
def robustTryPattern (caps : List (List Char)) : Option String :=
  match caps.getLast? with
  | none => none
  | some cap => robustDigestOfCapture cap

/-- `SpackService._extract_install_digest_robust`
(spack_service.py:229-292): try pattern 1 (with line-end anchor), then
patterns 2 and 3 (identical, without the anchor), first success wins.
Total: never raises. -/
def extract_install_digest_robust (output : String) : Option String :=
  let cs := (pyNormalize output).toList
  match robustTryPattern (tokenCaptures true cs) with
  | some d => some d
  | none =>
      match robustTryPattern (tokenCaptures false cs) with
      | some d => some d
      | none => robustTryPattern (tokenCaptures false cs)

/-- The composition used by `install_package_stream`
(spack_service.py:609-612): the plain extractor first, the robust one as
fallback. -/
def extractInstallDigestCombined (output : String) : Option String :=
  match extract_install_digest output with
  | some d => some d
  | none => extract_install_digest_robust output

/-- The final path segments captured by the marker scan of
`_extract_install_digest`, in match order, as strings. -/
def markerSegments (output : String) : List String :=
  (digestSegmentCaptures (pyNormalize output).toList).map String.mk

/-! ## Build log collector (`SpackService._collect_build_logs_from_output`,
spack_service.py:294-374)

The three regular expressions of the collector are again modelled by
character scanners with `re.findall` semantics.  The filesystem is passed
in as an oracle: `fileExists` is `Path.exists`, `readResult` is
`Path.read_text` (with `Except.error e` for a raised exception whose
`str` is `e`), and `recentStages` is the result of
`glob.glob("/tmp/*/spack-stage/spack-stage-*")` already sorted by
modification time, newest first (spack_service.py:331-333). -/

/-- A character the `[^/\s]` class accepts. -/
def isPathChar (c : Char) : Bool := c != '/' && !pyIsSpace c

/-- Match `/tmp/[^/\s]*/spack-stage/spack-stage-[^/\s]+` at the head of
`cs`; returns the match length.  Each character class here is forced: the
classes exclude `/` and every literal region starts with `/`, so the
greedy scan never backtracks. -/
def matchStageAt (cs : List Char) : Option Nat :=
  let lit1 := "/tmp/".toList
  if cs.take lit1.length == lit1 then
    let r1 := cs.drop lit1.length
    let seg := r1.takeWhile isPathChar
    let r2 := r1.drop seg.length
    let lit2 := "/spack-stage/spack-stage-".toList
    if r2.take lit2.length == lit2 then
      let tok := (r2.drop lit2.length).takeWhile isPathChar
      if tok.isEmpty then none
      else some (lit1.length + seg.length + lit2.length + tok.length)
    else none
  else none

/-- Match
`/tmp/[^/\s]*/spack-stage/spack-stage-[^/\s]+/spack-build-out\.txt`
at the head of `cs` (the explicit-log pattern, spack_service.py:312). -/
def matchExplicitLogAt (cs : List Char) : Option Nat :=
  match matchStageAt cs with
  | none => none
  | some n =>
      let lit3 := "/spack-build-out.txt".toList
      if (cs.drop n).take lit3.length == lit3 then some (n + lit3.length) else none

/-- Match `/tmp/[^/\s]*/spack-build-[^/\s]+` at the head of `cs`
(the build-directory pattern, spack_service.py:322). -/
def matchBuildDirAt (cs : List Char) : Option Nat :=
  let lit1 := "/tmp/".toList
  if cs.take lit1.length == lit1 then
    let r1 := cs.drop lit1.length
    let seg := r1.takeWhile isPathChar
    let r2 := r1.drop seg.length
    let lit2 := "/spack-build-".toList
    if r2.take lit2.length == lit2 then
      let tok := (r2.drop lit2.length).takeWhile isPathChar
      if tok.isEmpty then none
      else some (lit1.length + seg.length + lit2.length + tok.length)
    else none
  else none

/-- Fuel-structural `re.findall` driver: scan left to right,
non-overlapping, resume at the match end on success and one character
further on failure (same fuel discipline as `digestSegmentCapturesGo`). -/
def findAllMatchesGo (m : List Char → Option Nat) (fuel : Nat) (cs : List Char) :
    List String :=
  match fuel, cs with
  | 0, _ => []
  | _, [] => []
  | fuel + 1, c :: rest =>
      match m (c :: rest) with
      | some n =>
          if n = 0 then findAllMatchesGo m fuel rest
          else String.mk ((c :: rest).take n) :: findAllMatchesGo m fuel ((c :: rest).drop n)
      | none => findAllMatchesGo m fuel rest

/-- All matches of one collector pattern over the scanned text. -/
def findAllMatches (m : List Char → Option Nat) (cs : List Char) : List String :=
  findAllMatchesGo m (cs.length + 1) cs

/-- The filesystem as seen by the collector. -/
structure FileSystem where
  fileExists : String → Bool
  readResult : String → Except String String
  recentStages : List String

/-- Order-preserving deduplication with a `seen` set, as in
spack_service.py:337-350. -/
def dedupKeepFirst (seen : List String) : List String → List String
  | [] => []
  | x :: xs => if x ∈ seen then dedupKeepFirst seen xs else x :: dedupKeepFirst (x :: seen) xs

/-- The ordered, deduplicated candidate list built in
spack_service.py:308-350: explicit log-file paths first, then every
stage/build directory with `spack-build-out.txt` appended (`Path` join;
pathlib's collapsing of duplicate slashes inside a matched path is not
modelled — no pattern produces one except for a literal `/tmp//...` in
the scanned text), falling back to the five most recent stage
directories when the output mentions nothing. -/
def buildLogCandidates (fs : FileSystem) (full_output : String) : List String :=
  let cs := full_output.toList
  let log_file_paths := findAllMatches matchExplicitLogAt cs
  let stage_paths := findAllMatches matchStageAt cs ++ findAllMatches matchBuildDirAt cs
  let stage_paths :=
    if stage_paths.isEmpty && log_file_paths.isEmpty then fs.recentStages.take 5
    else stage_paths
  dedupKeepFirst [] (log_file_paths ++ stage_paths.map (· ++ "/spack-build-out.txt"))

/-- What one candidate contributes to the collected logs
(spack_service.py:352-364): its header plus content when readable, a
header-with-error placeholder when it exists but reading raises, nothing
when the file does not exist (that case is only logged). -/
def logEntry (fs : FileSystem) (p : String) : Option String :=
  if fs.fileExists p then
    match fs.readResult p with
    | .ok content => some ("===== " ++ p ++ " =====\n" ++ content)
    | .error e => some ("===== " ++ p ++ " (error reading: " ++ e ++ ") =====\n")
  else none

/-- `SpackService._collect_build_logs_from_output`
(spack_service.py:294-374).  Total — the Python body is wrapped in a
catch-all `try/except` returning `None`, and the pure model has no
failing operations left. -/
def collect_build_logs_from_output (fs : FileSystem) (full_output : String) :
    Option String :=
  let logs := (buildLogCandidates fs full_output).filterMap (logEntry fs)
  if logs.isEmpty then none else some (String.intercalate "\n\n" logs)

/-! ## Output parser (`SpackService.get_package_info`,
spack_service.py:1205-1445)

Models of the pydantic result models (`models/responses.py`) restricted
to the fields the parser sets; `has_checksum`/`checksum` keep their
defaults throughout `get_package_info`.  The event timestamps
(`time.time()`) are wall-clock floats that no claim constrains and are
omitted from the event models further below. -/

/-- `SpackVersionInfo` (responses.py:33-39). -/
structure SpackVersionInfo where
  version : String
  url : Option String
  has_checksum : Bool := false
  checksum : Option String := none
deriving Repr, DecidableEq

/-- `SpackVariant` (responses.py:23-30); the parser always passes the
default as a string. -/
structure SpackVariant where
  name : String
  default : String
  values : List String
  description : String
  conditional : Option String := none
deriving Repr, DecidableEq

/-- `SpackPackage` (responses.py:50-80), the fields `get_package_info`
constructs. -/
structure SpackPackage where
  name : String
  version : String
  package_type : Option String := none
  description : String
  homepage : Option String := none
  preferred_version : Option SpackVersionInfo := none
  safe_versions : List SpackVersionInfo := []
  deprecated_versions : List SpackVersionInfo := []
  variants : List SpackVariant := []
  build_dependencies : List String := []
  link_dependencies : List String := []
  run_dependencies : List String := []
  licenses : List String := []
  dependencies : List String := []
deriving Repr, DecidableEq

/-- Python `str.startswith(tuple)`. -/
def startsWithAny (s : String) (ps : List String) : Bool :=
  ps.any (fun p => pyStartsWith s p)

/-- `lines[i].startswith("    ") or not lines[i].strip()` — the
continuation condition of the version/variant/dependency sub-scans
(e.g. spack_service.py:1303). -/
def contLine (l : String) : Bool := pyStartsWith l "    " || pyStrip l == ""

/-- The continuation condition of the description sub-scan
(spack_service.py:1274-1277). -/
def descContLine (l : String) : Bool :=
  pyStartsWith l "    " &&
    !(startsWithAny (pyStrip l) ["Homepage:", "Preferred version:", "Safe versions:"])

/-- A section sub-scan: fold `f` over the maximal run of lines satisfying
`cont`; the `Nat` is the number of lines consumed (the Python loops
advance `i` past the run and step back one, so the outer loop resumes on
the first non-matching line). -/
def scanWhile (cont : String → Bool) (f : σ → String → σ) : σ → List String → σ × Nat
  | s, [] => (s, 0)
  | s, l :: rest =>
      if cont l then
        let r := scanWhile cont f (f s l) rest
        (r.1, r.2 + 1)
      else (s, 0)

/-- One continuation line of the description sub-scan
(spack_service.py:1278): accumulate with single-space separators. -/
def descriptionStep (acc : String) (l : String) : String := acc ++ " " ++ pyStrip l

/-- One continuation line of the Safe-versions section
(spack_service.py:1303-1311): a non-blank line not starting with the next
section headers contributes `(first token, optional second token)`.
Note: unlike the Deprecated-versions section, a literal `None` line is
NOT filtered out here. -/
def safeVersionStep (acc : List SpackVersionInfo) (l : String) : List SpackVersionInfo :=
  let version_line := pyStrip l
  if version_line != "" &&
      !(startsWithAny version_line ["Deprecated versions:", "Variants:"]) then
    match pySplitWs version_line with
    | [] => acc
    | t0 :: ts => acc ++ [{ version := t0, url := ts.head? }]
  else acc

/-- One continuation line of the Deprecated-versions section
(spack_service.py:1317-1325): literal `None` lines are skipped. -/
def deprecatedVersionStep (acc : List SpackVersionInfo) (l : String) : List SpackVersionInfo :=
  let version_line := pyStrip l
  if version_line != "" && version_line != "None" then
    match pySplitWs version_line with
    | [] => acc
    | t0 :: ts => acc ++ [{ version := t0, url := ts.head? }]
  else acc

/-- One continuation line of a dependency section (spack_service.py:
1381-1388, 1394-1400, 1406-1412).  The state pairs the section's own list
with the running `all_dependencies` list; both are extended by the same
whitespace-split names unless the line is blank or the literal `None`. -/
def dependencyStep (acc : List String × List String) (l : String) :
    List String × List String :=
  let deps_line := pyStrip l
  if deps_line != "" && deps_line != "None" then
    (acc.1 ++ pySplitWs deps_line, acc.2 ++ pySplitWs deps_line)
  else acc

/-- `str.find` for a single character (index of first occurrence). -/
def charIndex (c : Char) : List Char → Option Nat
  | [] => none
  | x :: xs => if x == c then some 0 else (charIndex c xs).map (· + 1)

/-- One continuation line of the Variants section
(spack_service.py:1332-1371).  State: (flushed variants, variant being
accumulated).  A `when @` line attaches the conditional to the current
variant; a line containing `[` and `]` first flushes the current variant
and, when the brackets are positioned validly, starts a new one.
Python's aliasing of a current variant that has already been flushed
(reachable only through a malformed bracket line, e.g. one whose `]`
precedes its `[`) is not modelled: there the model keeps the flushed
value itself, while Python would keep a mutable reference into the list;
no claim exercises that path. -/
def variantStep (acc : List SpackVariant × Option SpackVariant) (l : String) :
    List SpackVariant × Option SpackVariant :=
  let variant_line := pyStrip l
  if variant_line == "" then acc
  else if pyStartsWith variant_line "when @" then
    (acc.1, acc.2.map (fun c => { c with conditional := some variant_line }))
  else if pyContains variant_line '[' && pyContains variant_line ']' then
    let flushed := acc.1 ++ acc.2.toList
    let cs := variant_line.toList
    match charIndex '[' cs, charIndex ']' cs with
    | some bracket_start, some bracket_end =>
        if 0 < bracket_start && bracket_start < bracket_end then
          let variant_name := pyStrip (String.mk (cs.take bracket_start))
          let default_val :=
            pyStrip (String.mk ((cs.drop (bracket_start + 1)).take (bracket_end - (bracket_start + 1))))
          let remaining := pyStrip (String.mk (cs.drop (bracket_end + 1)))
          let vals :=
            if remaining != "" then
              if pyContains remaining ',' then (pySplitOn remaining ",").map pyStrip
              else if !(remaining.toList.headD 'a').isUpper then [remaining] else []
            else []
          let descr :=
            if remaining != "" && !(pyContains remaining ',') &&
                (remaining.toList.headD 'a').isUpper then remaining
            else ""
          (flushed, some { name := variant_name, default := default_val, values := vals,
                           description := descr })
        else (flushed, acc.2)
    | _, _ => (flushed, acc.2)
  else acc

/-- The mutable locals of the parsing loop (spack_service.py:1244-1257).
`multiline_description` is initialized once and never reset, exactly as
in the source. -/
structure InfoParseState where
  package_type : String := ""
  description : String := ""
  multiline_description : String := ""
  homepage : String := ""
  preferred_version : Option SpackVersionInfo := none
  safe_versions : List SpackVersionInfo := []
  deprecated_versions : List SpackVersionInfo := []
  variants : List SpackVariant := []
  build_dependencies : List String := []
  link_dependencies : List String := []
  run_dependencies : List String := []
  licenses : List String := []
  all_dependencies : List String := []
deriving Repr, DecidableEq

/-- The Description branch (spack_service.py:1270-1282). -/
def descriptionBranch (st : InfoParseState) (line : String) (rest : List String) :
    InfoParseState × Nat :=
  let d0 := pyStrip (pyReplace line "Description:" "")
  let r := scanWhile descContLine descriptionStep st.multiline_description rest
  let d1 := if r.1 != "" then d0 ++ r.1 else d0
  ({ st with description := d1, multiline_description := r.1 }, r.2)

/-- The Preferred-version branch (spack_service.py:1289-1298): read the
single next line; its first token is the label, the second (when
present) the URL — with no `None` filter. -/
def preferredBranch (st : InfoParseState) (rest : List String) : InfoParseState × Nat :=
  match rest with
  | [] => (st, 1)
  | vl :: _ =>
    let version_line := pyStrip vl
    let st2 :=
      if version_line != "" then
        match pySplitWs version_line with
        | [] => st
        | t0 :: ts =>
            { st with preferred_version := some { version := t0, url := ts.head? } }
      else st
    (st2, 1)

/-- The Safe-versions branch (spack_service.py:1301-1312). -/
def safeVersionsBranch (st : InfoParseState) (rest : List String) :
    InfoParseState × Nat :=
  let r := scanWhile contLine safeVersionStep st.safe_versions rest
  ({ st with safe_versions := r.1 }, r.2)

/-- The Deprecated-versions branch (spack_service.py:1315-1326). -/
def deprecatedVersionsBranch (st : InfoParseState) (rest : List String) :
    InfoParseState × Nat :=
  let r := scanWhile contLine deprecatedVersionStep st.deprecated_versions rest
  ({ st with deprecated_versions := r.1 }, r.2)

/-- The Variants branch (spack_service.py:1329-1376), with the final
flush of the accumulating variant. -/
def variantsBranch (st : InfoParseState) (rest : List String) : InfoParseState × Nat :=
  let r := scanWhile contLine variantStep (st.variants, none) rest
  ({ st with variants := r.1.1 ++ r.1.2.toList }, r.2)

/-- The Build-Dependencies branch (spack_service.py:1379-1389). -/
def buildDepsBranch (st : InfoParseState) (rest : List String) : InfoParseState × Nat :=
  let r := scanWhile contLine dependencyStep (st.build_dependencies, st.all_dependencies) rest
  ({ st with build_dependencies := r.1.1, all_dependencies := r.1.2 }, r.2)

/-- The Link-Dependencies branch (spack_service.py:1392-1401). -/
def linkDepsBranch (st : InfoParseState) (rest : List String) : InfoParseState × Nat :=
  let r := scanWhile contLine dependencyStep (st.link_dependencies, st.all_dependencies) rest
  ({ st with link_dependencies := r.1.1, all_dependencies := r.1.2 }, r.2)

/-- The Run-Dependencies branch (spack_service.py:1404-1413). -/
def runDepsBranch (st : InfoParseState) (rest : List String) : InfoParseState × Nat :=
  let r := scanWhile contLine dependencyStep (st.run_dependencies, st.all_dependencies) rest
  ({ st with run_dependencies := r.1.1, all_dependencies := r.1.2 }, r.2)

/-- The Licenses branch (spack_service.py:1416-1426): inline value, or
the next line when the inline part is empty or `None` (note the quirk:
an inline `None` makes the parser read the next line). -/
def licensesBranch (st : InfoParseState) (line : String) (rest : List String) :
    InfoParseState × Nat :=
  let license_line := pyStrip (pyReplace line "Licenses:" "")
  if license_line != "" && license_line != "None" then
    ({ st with licenses := [license_line] }, 0)
  else
    match rest with
    | [] => (st, 1)
    | nl :: _ =>
      let next_line := pyStrip nl
      if next_line != "" && next_line != "None" then
        ({ st with licenses := [next_line] }, 1)
      else (st, 1)

/-- One iteration of the `while i < len(lines)` loop of
`get_package_info` (spack_service.py:1260-1428), minus the `i == 0`
package-type branch (handled by the caller on the first line; no other
branch can match a line without a colon, so running the chain from the
second line onward is equivalent).  Returns the updated state and how
many lines beyond the current one the branch consumed; each section
branch consumes its continuation lines so that the loop resumes on the
first non-matching line, mirroring the `i -= 1` dance. -/
def infoLineStep (st : InfoParseState) (l : String) (rest : List String) :
    InfoParseState × Nat :=
  let line := pyStrip l
  if pyStartsWith line "Description:" then descriptionBranch st line rest
  else if pyStartsWith line "Homepage:" then
    ({ st with homepage := pyStrip (pyReplace line "Homepage:" "") }, 0)
  else if pyStartsWith line "Preferred version:" then preferredBranch st rest
  else if pyStartsWith line "Safe versions:" then safeVersionsBranch st rest
  else if pyStartsWith line "Deprecated versions:" then deprecatedVersionsBranch st rest
  else if pyStartsWith line "Variants:" then variantsBranch st rest
  else if pyStartsWith line "Build Dependencies:" then buildDepsBranch st rest
  else if pyStartsWith line "Link Dependencies:" then linkDepsBranch st rest
  else if pyStartsWith line "Run Dependencies:" then runDepsBranch st rest
  else if pyStartsWith line "Licenses:" then licensesBranch st line rest
  else (st, 0)

/-- The parsing loop: apply `infoLineStep` to each line, skipping the
lines the branch consumed (fuel-structural; every iteration consumes at
least the current line). -/
def infoLoopGo (fuel : Nat) (st : InfoParseState) (ls : List String) : InfoParseState :=
  match fuel, ls with
  | 0, _ => st
  | _, [] => st
  | fuel + 1, l :: rest =>
      let r := infoLineStep st l rest
      infoLoopGo fuel r.1 (rest.drop r.2)

/-- The parser loop entry point: every iteration of `infoLoopGo` consumes
at least one line, so fuel above the line count makes the fuel bound
unreachable. -/
def infoLoop (st : InfoParseState) (ls : List String) : InfoParseState :=
  infoLoopGo (ls.length + 1) st ls

/-- `SpackService.get_package_info` (spack_service.py:1205-1445) applied
to the `_run_spack_command` result for `spack info <spec>`.  On a failed
invocation, the minimal "information unavailable" descriptor
(spack_service.py:1231-1240).  `list(set(all_dependencies))` is modelled
by `List.dedup`; the claim-relevant properties (membership,
duplicate-freeness) do not depend on a Python set's unspecified
ordering. -/
def get_package_info (package_name : String) (version : Option String)
    (result : ExecResult) : SpackPackage :=
  if !result.success then
    { name := package_name
      version := if isTruthy version then version.getD "" else "unknown"
      description := "Package information unavailable"
      homepage := some "" }
  else
    let lines := pySplitOn result.stdout "\n"
    let st0 : InfoParseState := {}
    let stPair :=
      match lines with
      | [] => (st0, ([] : List String))
      | l0 :: rest =>
          let line := pyStrip l0
          (if pyContains line ':' then
             { st0 with package_type := pyStrip ((pySplitOn line ":").headD "") }
           else st0, rest)
    let st := infoLoop stPair.1 stPair.2
    { name := package_name
      version := if isTruthy version then version.getD "" else "latest"
      package_type := if st.package_type != "" then some st.package_type else none
      description :=
        if st.description != "" then st.description else "Spack package: " ++ package_name
      homepage := if st.homepage != "" then some st.homepage else none
      preferred_version := st.preferred_version
      safe_versions := st.safe_versions
      deprecated_versions := st.deprecated_versions
      variants := st.variants
      build_dependencies := st.build_dependencies
      link_dependencies := st.link_dependencies
      run_dependencies := st.run_dependencies
      licenses := st.licenses
      dependencies := st.all_dependencies.dedup }

/-! ## Stream multiplexer (`SpackService.install_package_stream`,
spack_service.py:496-643, and `validate_package_stream`,
spack_service.py:1835-2018)

The async generators are modelled as relations between the process
behavior and the produced event sequence.  The only nondeterminism in
the source is the dequeue order of the shared FIFO queue fed by the two
stream readers; each reader enqueues its lines in order and the drain
loop re-emits every queued entry, so the emitted middle section is an
order-preserving merge (`Interleave`) of the two tagged line lists.
Each reader appends to `all_output` and enqueues with no suspension
point in between, so the accumulated text equals the event data in
dequeue order.  Event timestamps are omitted (wall-clock floats no claim
constrains). -/

/-- What the spawned child process does: `create_subprocess_exec` raises
(with `str(e) = msg`), or the process runs, emitting the given decoded,
right-stripped stdout/stderr lines and exiting with `returncode`. -/
inductive ProcBehavior where
  | spawnFail (msg : String)
  | run (stdoutLines stderrLines : List String) (returncode : Int)

/-- `zs` is an order-preserving merge of `xs` and `ys`. -/
inductive Interleave : List α → List α → List α → Prop where
  | nil : Interleave [] [] []
  | left (x : α) {xs ys zs : List α} :
      Interleave xs ys zs → Interleave (x :: xs) ys (x :: zs)
  | right (y : α) {xs ys zs : List α} :
      Interleave xs ys zs → Interleave xs (y :: ys) (y :: zs)

/-- `SpackInstallStreamResult` (responses.py:94-106), without the
timestamp. -/
structure SpackInstallStreamResult where
  type : String
  data : String
  package_name : String
  version : Option String
  success : Option Bool := none
  install_digest : Option String := none
  detailed_failed_log : Option String := none
deriving Repr, DecidableEq

/-- The spec string built in spack_service.py:517-523 (the `dependencies`
argument is never used for the command). -/
def specString (package_name : String) (version : Option String)
    (variants : List String) : String :=
  let spec := if isTruthy version then package_name ++ "@" ++ version.getD ""
              else package_name
  variants.foldl (fun a v => a ++ " " ++ v) spec

/-- The start event (spack_service.py:528-534). -/
def installStartEvent (pkg : String) (ver : Option String) (vars : List String)
    (sid : Option String) : SpackInstallStreamResult :=
  { type := "start"
    data := "Starting installation of " ++ specString pkg ver vars ++
      (if isTruthy sid then " (session: " ++ sid.getD "" ++ ")" else "")
    package_name := pkg, version := ver }

/-- An output/error-channel or error event (spack_service.py:574-582,
544-550, 637-643): only `type` and `data` vary. -/
def installOutputEvent (pkg : String) (ver : Option String) (t line : String) :
    SpackInstallStreamResult :=
  { type := t, data := line, package_name := pkg, version := ver }

/-- The command vector built in spack_service.py:537-553. -/
def installCommand (st : SessionStore) (spack_cmd spec : String)
    (sid : Option String) : Except String (List String) :=
  if isTruthy sid then
    match get_singularity_command_parts st (sid.getD "") with
    | .error e => .error e
    | .ok parts => .ok (parts ++ ["install", spec])
  else .ok [spack_cmd, "install", spec]

/-- The completion event (spack_service.py:602-633): success iff exit
code 0; on success the digest is extracted from all accumulated output
(plain extractor first, robust fallback); on failure the build logs are
collected instead. -/
def installCompleteEvent (fs : FileSystem) (pkg : String) (ver : Option String)
    (vars : List String) (rc : Int) (allOutput : List String) :
    SpackInstallStreamResult :=
  let spec := specString pkg ver vars
  { type := "complete"
    data := if rc == 0 then "Successfully installed " ++ spec
            else "Failed to install " ++ spec ++ " (return code: " ++ toString rc ++ ")"
    package_name := pkg, version := ver
    success := some (rc == 0)
    install_digest :=
      if rc == 0 then extractInstallDigestCombined (String.intercalate "\n" allOutput)
      else none
    detailed_failed_log :=
      if rc == 0 then none
      else collect_build_logs_from_output fs (String.intercalate "\n" allOutput) }

/-- The event sequences `install_package_stream` can produce
(spack_service.py:496-643) for a given process behavior.  The generator
body never lets an exception escape: the unresolvable-session and
spawn-failure paths each yield a single error event after the start
event and return. -/
inductive InstallStreamEvents (fs : FileSystem) (st : SessionStore)
    (spack_cmd pkg : String) (ver : Option String) (vars : List String)
    (sid : Option String) : ProcBehavior → List SpackInstallStreamResult → Prop where
  | sessionError (e : String) (beh : ProcBehavior) :
      installCommand st spack_cmd (specString pkg ver vars) sid = .error e →
      InstallStreamEvents fs st spack_cmd pkg ver vars sid beh
        [installStartEvent pkg ver vars sid,
         installOutputEvent pkg ver "error" ("Session error: " ++ e)]
  | spawnError (c : List String) (msg : String) :
      installCommand st spack_cmd (specString pkg ver vars) sid = .ok c →
      InstallStreamEvents fs st spack_cmd pkg ver vars sid (.spawnFail msg)
        [installStartEvent pkg ver vars sid,
         installOutputEvent pkg ver "error" ("Installation failed: " ++ msg)]
  | completed (c : List String) (outs errs : List String) (rc : Int)
      (mid : List SpackInstallStreamResult) :
      installCommand st spack_cmd (specString pkg ver vars) sid = .ok c →
      Interleave (outs.map (installOutputEvent pkg ver "output"))
                 (errs.map (installOutputEvent pkg ver "error")) mid →
      InstallStreamEvents fs st spack_cmd pkg ver vars sid (.run outs errs rc)
        (installStartEvent pkg ver vars sid ::
          (mid ++ [installCompleteEvent fs pkg ver vars rc (mid.map (fun e => e.data))]))

/-- `SpackValidationStreamResult` (responses.py:215-224), without the
timestamp. -/
structure SpackValidationStreamResult where
  type : String
  data : String
  package_name : String
  package_type : String
  success : Option Bool := none
  validation_command : Option String := none
deriving Repr, DecidableEq

/-- The validation script (spack_service.py:1872-1881); note the `.get`
with `other` fallback makes every unknown package type safe here. -/
def validationScript (custom : Option String) (package_type package_name : String) :
    String :=
  if isTruthy custom then custom.getD ""
  else if package_type == "python" then "python -c \"import " ++ package_name ++ "\""
  else if package_type == "r" then "Rscript -e \"library(" ++ package_name ++ ")\""
  else "# Check package documentation for validation"

/-- The load spec (spack_service.py:1883-1905).  `Except.error` is the
`KeyError` Python raises at the unguarded dict subscript
`prefixes[package_type]` (spack_service.py:1903) for a package type
outside {python, r, other} when no digest is supplied — in contrast to
the guarded `.get` used for the script. -/
def validateLoadSpec (package_type : String) (digest : Option String)
    (package_name : String) : Except String String :=
  if isTruthy digest then .ok ("/" ++ (digest.getD "").take 7)
  else if package_type == "python" then .ok ("py-" ++ package_name)
  else if package_type == "r" then .ok ("r-" ++ package_name)
  else if package_type == "other" then .ok package_name
  else .error package_type

/-- The validation command vector (spack_service.py:1907-1939);
`Except.error` is the `ValueError` for an unresolvable session (caught
inside the generator and turned into an error event). -/
def validateCommand (st : SessionStore) (load_spec script : String)
    (sid : Option String) : Except String (List String) :=
  if isTruthy sid then
    match get_session_dir st (sid.getD "") with
    | none => .error ("Session " ++ sid.getD "" ++ " not found")
    | some session_dir =>
        .ok ["bash", "-c",
          "singularity exec --bind /usr/bin/zsh --bind /mnt/data --bind " ++ session_dir ++
          "/repos.yaml:/home/ubuntu/.spack/repos.yaml /home/ubuntu/spack.sif bash -c " ++
          "'source <(/opt/spack/bin/spack load --sh " ++ load_spec ++ "); " ++ script ++ "'"]
  else
    .ok ["bash", "-c",
      "singularity exec --bind /mnt/data /home/ubuntu/spack.sif bash -c " ++
      "'source <(/opt/spack/bin/spack load --sh " ++ load_spec ++ "); " ++ script ++ "'"]

/-- The validation start event (spack_service.py:1864-1870). -/
def validateStartEvent (pkg pt : String) (sid : Option String) :
    SpackValidationStreamResult :=
  { type := "start"
    data := "Starting validation of " ++ pkg ++
      (if isTruthy sid then " (session: " ++ sid.getD "" ++ ")" else "")
    package_name := pkg, package_type := pt }

/-- An output/error-channel or error event of the validation stream. -/
def validateOutputEvent (pkg pt t line : String) : SpackValidationStreamResult :=
  { type := t, data := line, package_name := pkg, package_type := pt }

/-- The validation completion event (spack_service.py:1988-2008). -/
def validateCompleteEvent (pkg pt : String) (rc : Int) (cmd : List String) :
    SpackValidationStreamResult :=
  { type := "complete"
    data := if rc == 0 then "Package " ++ pkg ++ " validation successful"
            else "Package " ++ pkg ++ " validation failed (return code: " ++
              toString rc ++ ")"
    package_name := pkg, package_type := pt
    success := some (rc == 0)
    validation_command := some (String.intercalate " " cmd) }

/-- The event sequences `validate_package_stream` can produce
(spack_service.py:1835-2018), together with whether the generator then
raises: the final `Bool` is `true` exactly when the `KeyError` of
`validateLoadSpec` escapes (it is raised between the start event and the
`try` block, so the sequence stops after the start event with no
terminal event). -/
inductive ValidateStreamEvents (st : SessionStore) (pkg pt : String)
    (digest custom sid : Option String) :
    ProcBehavior → List SpackValidationStreamResult → Bool → Prop where
  | keyError (beh : ProcBehavior) (e : String) :
      validateLoadSpec pt digest pkg = .error e →
      ValidateStreamEvents st pkg pt digest custom sid beh
        [validateStartEvent pkg pt sid] true
  | sessionError (ls e : String) (beh : ProcBehavior) :
      validateLoadSpec pt digest pkg = .ok ls →
      validateCommand st ls (validationScript custom pt pkg) sid = .error e →
      ValidateStreamEvents st pkg pt digest custom sid beh
        [validateStartEvent pkg pt sid,
         validateOutputEvent pkg pt "error" ("Session error: " ++ e)] false
  | spawnError (ls : String) (c : List String) (msg : String) :
      validateLoadSpec pt digest pkg = .ok ls →
      validateCommand st ls (validationScript custom pt pkg) sid = .ok c →
      ValidateStreamEvents st pkg pt digest custom sid (.spawnFail msg)
        [validateStartEvent pkg pt sid,
         validateOutputEvent pkg pt "error" ("Validation failed: " ++ msg)] false
  | completed (ls : String) (c : List String) (outs errs : List String) (rc : Int)
      (mid : List SpackValidationStreamResult) :
      validateLoadSpec pt digest pkg = .ok ls →
      validateCommand st ls (validationScript custom pt pkg) sid = .ok c →
      Interleave (outs.map (validateOutputEvent pkg pt "output"))
                 (errs.map (validateOutputEvent pkg pt "error")) mid →
      ValidateStreamEvents st pkg pt digest custom sid (.run outs errs rc)
        (validateStartEvent pkg pt sid :: (mid ++ [validateCompleteEvent pkg pt rc c]))
        false

/-- Number of events of a given type in an installation event sequence. -/
def countInstallType (evs : List SpackInstallStreamResult) (t : String) : Nat :=
  (evs.filter (fun e => e.type == t)).length

/-- Number of events of a given type in a validation event sequence. -/
def countValidateType (evs : List SpackValidationStreamResult) (t : String) : Nat :=
  (evs.filter (fun e => e.type == t)).length

/-! ## Concrete fixtures used by the theorems below -/

/-- An empty session store: no in-memory sessions, nothing recoverable
from the filesystem. -/
def emptySessionStore : SessionStore := ⟨[], fun _ => false⟩

/-- A store holding the single session `s1`. -/
def oneSessionStore : SessionStore := ⟨[("s1", "/tmp/s1")], fun _ => false⟩

/-- Install output whose two marker lines both carry valid 32-character
digests (the spec's `pkgA`/`pkgB` example). -/
def twoMarkerValidText : String :=
  "==> Installing pkgA\n" ++
  "[+] /opt/spack/linux-ubuntu22.04/gcc-11.4.0/pkgA-1.0-aaaaaaaaaaaaaaaaaaaaaaaaaaaaaaaa\n" ++
  "==> Installing pkgB\n" ++
  "[+] /opt/spack/linux-ubuntu22.04/gcc-11.4.0/pkgB-2.0-bbbbbbbbbbbbbbbbbbbbbbbbbbbbbbbb"

/-- Install output whose first marker line carries a valid 32-character
digest but whose last marker line's trailing token is only 7 characters
long. -/
def lastMarkerShortText : String :=
  "[+] /opt/spack/linux-ubuntu22.04/gcc-11.4.0/pkgA-1.0-aaaaaaaaaaaaaaaaaaaaaaaaaaaaaaaa\n" ++
  "[+] /opt/spack/linux-ubuntu22.04/gcc-11.4.0/pkgB-2.0-short12"

/-- Install output whose only trailing token after the last hyphen is 7
characters long. -/
def sevenCharTokenText : String :=
  "==> Installing\n[+] /opt/spack/linux-ubuntu22.04/gcc-11.4.0/pkgB-2.0-short12"

/-- The repository's own fixture for a bundle-type package
(tests/test_spack_service.py:105-137). -/
def bundleInfoText : String :=
  "BundlePackage:   dummy-test\n\nDescription:\n" ++
  "    A dummy bundle package for testing GitHub Actions workflow. Only depends\n" ++
  "    on zlib.\n\nHomepage: https://example.com/dummy-test\n\n" ++
  "Preferred version:\n    1.0.0\n\nSafe versions:\n    1.0.0\n\n" ++
  "Deprecated versions:\n    None\n\nVariants:\n" ++
  "    build_system [bundle]        bundle\n" ++
  "        Build systems supported by the package\n\n" ++
  "Build Dependencies:\n    zlib\n\nLink Dependencies:\n    None\n\n" ++
  "Run Dependencies:\n    zlib\n\nLicenses:\n    MIT\n"

/-- Info output whose preferred and safe version sections hold a literal
`None` continuation line. -/
def noneVersionInfoText : String :=
  "Package:   p\n\nPreferred version:\n    None\n\n" ++
  "Safe versions:\n    None\n\nDeprecated versions:\n    None\n"

/-- Failure output referencing one stage directory. -/
def oneStageOutput : String :=
  "==> Error: build failed, see /tmp/s1/spack-stage/spack-stage-pkg-abc123 for details"

/-- A filesystem on which no candidate log file exists. -/
def fsAllMissing : FileSystem := ⟨fun _ => false, fun _ => .error "unused", []⟩

/-- Failure output referencing two distinct stage directories. -/
def twoStageOutput : String :=
  "==> Error in /tmp/s1/spack-stage/spack-stage-pkg-abc123\n" ++
  "==> also see /tmp/s1/spack-stage/spack-stage-dep-def456"

/-- A filesystem where both referenced stage logs exist and are
readable. -/
def fsTwoLogs : FileSystem :=
  ⟨fun _ => true,
   fun p => if p == "/tmp/s1/spack-stage/spack-stage-pkg-abc123/spack-build-out.txt"
            then .ok "first log" else .ok "second log",
   []⟩

/-- Three stdout lines for the spec's streaming example. -/
def exOuts : List String := ["line1", "line2", "line3"]

/-- One stderr line for the spec's streaming example. -/
def exErrs : List String := ["warn1"]

/-- The middle (merged) section of the example install stream: the
dequeue order with all stdout lines first. -/
def exMid : List SpackInstallStreamResult :=
  exOuts.map (installOutputEvent "zlib" none "output") ++
    exErrs.map (installOutputEvent "zlib" none "error")

/-- The full event sequence of the example install stream (exit 0). -/
def exInstallEvents : List SpackInstallStreamResult :=
  installStartEvent "zlib" none [] none ::
    (exMid ++ [installCompleteEvent fsAllMissing "zlib" none [] 0
      (exMid.map (fun e => e.data))])

/-! # Theorems -/

/-- A string append with a nonempty left part is nonempty. -/
theorem append_left_ne_empty (s t : String) (h : s ≠ "") : s ++ t ≠ "" := by
  intro he
  apply h
  have hl := congrArg String.length he
  rw [String.length_append] at hl
  simp only [String.length_empty] at hl
  have h0 : s.length = 0 := by omega
  cases s with
  | mk data =>
    cases data with
    | nil => rfl
    | cons c cs => simp [String.length] at h0

/-- C9: for every command vector, working directory and timeout, the base
command runner returns a result record and never propagates an exception
(the model is a total function into `ExecResult`); the success flag is
true iff the exit code is zero, and on timeout expiry or spawn failure
the record has return code -1, empty stdout, a non-empty stderr
describing the failure, and success false.  (The spawn-failure stderr is
the raised exception's `str`, which is non-empty for the `OSError`
family `create_subprocess_exec` raises — hence the hypothesis.) -/
theorem C9_command_runner_contract (t : Nat) (o : SpawnOutcome) (msg : String)
    (hmsg : msg ≠ "") :
    ((run_command_base t o).success = true ↔ (run_command_base t o).returncode = 0) ∧
    run_command_base t .timedOut =
      { returncode := -1, stdout := ""
        stderr := "Command timed out after " ++ toString t ++ " seconds"
        success := false } ∧
    (run_command_base t .timedOut).stderr ≠ "" ∧
    run_command_base t (.raised msg) =
      { returncode := -1, stdout := "", stderr := msg, success := false } ∧
    (run_command_base t (.raised msg)).stderr ≠ "" := by
  refine ⟨?_, rfl, ?_, rfl, hmsg⟩
  · cases o <;> simp [run_command_base]
  · exact append_left_ne_empty _ _ (append_left_ne_empty _ _ (by decide))

/-- Witness for `C9_command_runner_contract` at timeout 300 and
spawn-failure message `boom`. -/
theorem C9_command_runner_contract_witness :
    ((run_command_base 300 (.completed 0 "out" "")).success = true ↔
      (run_command_base 300 (.completed 0 "out" "")).returncode = 0) ∧
    (run_command_base 300 .timedOut).stderr ≠ "" ∧
    (run_command_base 300 (.raised "boom")).stderr ≠ "" := by
  have h := C9_command_runner_contract 300 (.completed 0 "out" "") "boom" (by decide)
  exact ⟨h.1, h.2.2.1, h.2.2.2.2⟩

/-- C7: with no session identifier the command builder returns the base
vector unchanged (identity, and the runner is invoked on exactly that
vector); with a resolvable session it returns the fixed sandbox parts
followed by the base vector minus its first token when that token equals
the unwrapped tool's own path, and followed by the entire base vector
otherwise. -/
theorem C7_session_command_builder (st : SessionStore) (spack_cmd : String)
    (cmd : List String) (sid dir : String)
    (hsid : sid ≠ "") (hres : get_session_dir st sid = some dir) :
    effective_command st spack_cmd cmd none = .ok cmd ∧
    (∀ runBase, run_spack_command st runBase spack_cmd cmd none = .ok (runBase cmd)) ∧
    (∀ c0 rest, cmd = c0 :: rest →
        effective_command st spack_cmd cmd (some sid) =
          .ok (singularityCommandParts sid ++ (if c0 == spack_cmd then rest else cmd))) := by
  refine ⟨rfl, fun _ => rfl, ?_⟩
  rintro c0 rest rfl
  have hb : (sid == "") = false := by simpa using hsid
  by_cases h : c0 == spack_cmd <;>
    simp [effective_command, isTruthy, hb, get_singularity_command_parts, hres, h]

/-- Witness for `C7_session_command_builder`: session `s1`, tool path
`/opt/spack/bin/spack`, base vector `[/opt/spack/bin/spack, info, zlib]`. -/
theorem C7_session_command_builder_witness :
    effective_command oneSessionStore "/opt/spack/bin/spack"
      ["/opt/spack/bin/spack", "info", "zlib"] none =
      .ok ["/opt/spack/bin/spack", "info", "zlib"] ∧
    effective_command oneSessionStore "/opt/spack/bin/spack"
      ["/opt/spack/bin/spack", "info", "zlib"] (some "s1") =
      .ok (singularityCommandParts "s1" ++ ["info", "zlib"]) := by
  have h := C7_session_command_builder oneSessionStore "/opt/spack/bin/spack"
    ["/opt/spack/bin/spack", "info", "zlib"] "s1" "/tmp/s1" (by decide) (by decide)
  refine ⟨h.1, ?_⟩
  simpa using h.2.2 "/opt/spack/bin/spack" ["info", "zlib"] rfl

/-- C5 counterexample: on the non-streaming path, an unresolvable session
identifier does NOT produce a structured success/failure record — the
`ValueError` is re-raised out of `_run_spack_command`
(spack_service.py:168-170), modelled by the `Except.error` result; the
caller never receives an `ExecResult`.  (The "no process is spawned"
half of the claim does hold; see the amended theorem.) -/
theorem C5_session_error_counterexample :
    run_spack_command emptySessionStore (fun _ => run_command_base 300 (.completed 0 "" ""))
      "/opt/spack/bin/spack" ["/opt/spack/bin/spack", "find"] (some "deadbeef") =
      .error "Session deadbeef not found" ∧
    (run_spack_command emptySessionStore (fun _ => run_command_base 300 (.completed 0 "" ""))
      "/opt/spack/bin/spack" ["/opt/spack/bin/spack", "find"] (some "deadbeef")).toOption =
      none := by
  exact ⟨rfl, rfl⟩

/-- Helper: the shared validation guard of both extractors. -/
theorem valid_of_guarded {x d : String}
    (h : (if (x.length == 32 && pyAll x pyIsAlnum) = true then some x else none) =
      some d) :
    d.length = 32 ∧ pyAll d pyIsAlnum = true := by
  split at h
  · rename_i hb
    rw [Option.some.injEq] at h
    subst h
    simpa using hb
  · exact absurd h (by simp)

/-- Helper: the shared validation block accepts only validated digests. -/
theorem digestOfPackageName_valid (pn d : String)
    (h : digestOfPackageName pn = some d) :
    d.length = 32 ∧ pyAll d pyIsAlnum = true := by
  simp only [digestOfPackageName] at h
  split at h
  · exact valid_of_guarded h
  · exact absurd h (by simp)

/-- Helper: everything `_extract_install_digest` returns went through the
32-character alphanumeric validation. -/
theorem extract_install_digest_valid (o d : String)
    (h : extract_install_digest o = some d) :
    d.length = 32 ∧ pyAll d pyIsAlnum = true := by
  rcases hl : (digestSegmentCaptures (pyNormalize o).toList).getLast? with _ | nc
  · simp only [extract_install_digest, hl] at h
    exact absurd h (by simp)
  · simp only [extract_install_digest, hl] at h
    exact digestOfPackageName_valid _ d h

/-- Helper: the per-capture body of the robust extractor validates the
same way. -/
theorem robustDigestOfCapture_valid (cap : List Char) (d : String)
    (h : robustDigestOfCapture cap = some d) :
    d.length = 32 ∧ pyAll d pyIsAlnum = true := by
  simp only [robustDigestOfCapture] at h
  exact digestOfPackageName_valid _ d h

/-- Helper: one pattern attempt of the robust extractor validates. -/
theorem robustTryPattern_valid (caps : List (List Char)) (d : String)
    (h : robustTryPattern caps = some d) :
    d.length = 32 ∧ pyAll d pyIsAlnum = true := by
  rcases hl : caps.getLast? with _ | cap
  · simp [robustTryPattern, hl] at h
  · simp only [robustTryPattern, hl] at h
    exact robustDigestOfCapture_valid cap d h

/-- Helper: the robust extractor validates. -/
theorem extract_install_digest_robust_valid (o d : String)
    (h : extract_install_digest_robust o = some d) :
    d.length = 32 ∧ pyAll d pyIsAlnum = true := by
  rcases hl1 : robustTryPattern (tokenCaptures true (pyNormalize o).toList) with _ | d1
  · rcases hl2 : robustTryPattern (tokenCaptures false (pyNormalize o).toList) with _ | d2
    · simp only [extract_install_digest_robust, hl1, hl2] at h
      exact absurd h (by simp)
    · simp only [extract_install_digest_robust, hl1, hl2, Option.some.injEq] at h
      subst h
      exact robustTryPattern_valid _ d2 hl2
  · simp only [extract_install_digest_robust, hl1, Option.some.injEq] at h
    subst h
    exact robustTryPattern_valid _ d1 hl1

/-- C3: the digest extractor returns a digest only if it is exactly 32
characters, all alphanumeric; when no pattern variant yields such a
candidate — in particular when the trailing token after the last hyphen
is 7 characters — it returns `none`.  ("Never raises" is witnessed by the
extractors being total functions into `Option String`.) -/
theorem C3_digest_validation :
    (∀ o d, extract_install_digest o = some d →
        d.length = 32 ∧ pyAll d pyIsAlnum = true) ∧
    (∀ o d, extract_install_digest_robust o = some d →
        d.length = 32 ∧ pyAll d pyIsAlnum = true) ∧
    (∀ o d, extractInstallDigestCombined o = some d →
        d.length = 32 ∧ pyAll d pyIsAlnum = true) ∧
    extract_install_digest sevenCharTokenText = none ∧
    extract_install_digest_robust sevenCharTokenText = none ∧
    extractInstallDigestCombined sevenCharTokenText = none := by
  refine ⟨extract_install_digest_valid, extract_install_digest_robust_valid, ?_,
    by decide, by decide, by decide⟩
  intro o d h
  unfold extractInstallDigestCombined at h
  rcases hl : extract_install_digest o with _ | d1
  · rw [hl] at h
    exact extract_install_digest_robust_valid o d h
  · rw [hl] at h
    rw [Option.some.injEq] at h
    subst h
    exact extract_install_digest_valid o d1 hl

/-- Witness for `C3_digest_validation`: the first component applied to a
concrete successful extraction. -/
theorem C3_digest_validation_witness :
    ("bbbbbbbbbbbbbbbbbbbbbbbbbbbbbbbb" : String).length = 32 ∧
    pyAll "bbbbbbbbbbbbbbbbbbbbbbbbbbbbbbbb" pyIsAlnum = true :=
  C3_digest_validation.1 twoMarkerValidText "bbbbbbbbbbbbbbbbbbbbbbbbbbbbbbbb"
    (by decide)

/-- C2 counterexample: output with two install-marker lines whose last
occurrence's trailing token is `short12` (7 characters).  The claim says
the extractor returns that token; the code instead rejects it in
validation and returns `None` — the plain extractor, the robust one, and
their composition all return `none` here. -/
theorem C2_last_marker_counterexample :
    (markerSegments lastMarkerShortText).length = 2 ∧
    (markerSegments lastMarkerShortText).getLast? =
      some "pkgB-2.0-short12" ∧
    pyStrip ((pySplitOn (pyStrip "pkgB-2.0-short12") "-").getLastD "") = "short12" ∧
    extract_install_digest lastMarkerShortText = none ∧
    extract_install_digest_robust lastMarkerShortText = none ∧
    extractInstallDigestCombined lastMarkerShortText = none := by
  refine ⟨by decide, by decide, by decide, by decide, by decide, by decide⟩

/-- C2 (amended): when the last marker occurrence's final path segment
yields a trailing token that passes the 32-character alphanumeric
validation, the extractor returns exactly that token (and so does the
composition used by the install stream). -/
theorem C2_last_marker_digest (o name digest : String)
    (h1 : (markerSegments o).getLast? = some name)
    (h2 : 1 < (pySplitOn (pyStrip name) "-").length)
    (h3 : digest = pyStrip ((pySplitOn (pyStrip name) "-").getLastD ""))
    (h4 : (digest.length == 32 && pyAll digest pyIsAlnum) = true) :
    extract_install_digest o = some digest ∧
    extractInstallDigestCombined o = some digest := by
  have hcap : ∃ nc, (digestSegmentCaptures (pyNormalize o).toList).getLast? = some nc ∧
      String.mk nc = name := by
    rw [markerSegments, List.getLast?_map] at h1
    cases hc : (digestSegmentCaptures (pyNormalize o).toList).getLast? with
    | none => rw [hc] at h1; simp at h1
    | some nc =>
        rw [hc] at h1
        exact ⟨nc, rfl, by simpa using h1⟩
  obtain ⟨nc, hnc, hmk⟩ := hcap
  have hmain : extract_install_digest o = some digest := by
    simp only [extract_install_digest, hnc, digestOfPackageName]
    rw [hmk, if_pos h2, ← h3, if_pos h4]
  refine ⟨hmain, ?_⟩
  unfold extractInstallDigestCombined
  rw [hmain]

/-- Witness for `C2_last_marker_digest`: the spec's `pkgA`/`pkgB`
example — the extractor picks the last marker line and returns its
32-character token. -/
theorem C2_last_marker_digest_witness :
    extract_install_digest twoMarkerValidText =
      some "bbbbbbbbbbbbbbbbbbbbbbbbbbbbbbbb" ∧
    extractInstallDigestCombined twoMarkerValidText =
      some "bbbbbbbbbbbbbbbbbbbbbbbbbbbbbbbb" :=
  C2_last_marker_digest twoMarkerValidText "pkgB-2.0-bbbbbbbbbbbbbbbbbbbbbbbbbbbbbbbb"
    "bbbbbbbbbbbbbbbbbbbbbbbbbbbbbbbb" (by decide) (by decide) (by decide) (by decide)

/-- C1: for the fixed bundle-package example info text, the parser
returns a descriptor with package type `BundlePackage`, preferred
version `1.0.0` with no URL, exactly one variant `build_system` with
default `bundle`, build and run dependencies `[zlib]`, and licenses
`[MIT]`. -/
theorem C1_bundle_info_parse :
    (get_package_info "dummy-test" none ⟨0, bundleInfoText, "", true⟩).package_type =
      some "BundlePackage" ∧
    (get_package_info "dummy-test" none ⟨0, bundleInfoText, "", true⟩).preferred_version =
      some { version := "1.0.0", url := none } ∧
    (get_package_info "dummy-test" none ⟨0, bundleInfoText, "", true⟩).variants =
      [{ name := "build_system", default := "bundle", values := ["bundle"],
         description := "" }] ∧
    (get_package_info "dummy-test" none ⟨0, bundleInfoText, "", true⟩).build_dependencies =
      ["zlib"] ∧
    (get_package_info "dummy-test" none ⟨0, bundleInfoText, "", true⟩).run_dependencies =
      ["zlib"] ∧
    (get_package_info "dummy-test" none ⟨0, bundleInfoText, "", true⟩).licenses =
      ["MIT"] := by
  decide

/-- C4 counterexample: a literal `None` continuation line is NOT skipped
in the preferred-version and safe-versions sections — it becomes a
version entry labelled `None` (only the deprecated-versions section
filters it, spack_service.py:1319 vs 1305 and 1293). -/
theorem C4_none_version_counterexample :
    (get_package_info "p" none ⟨0, noneVersionInfoText, "", true⟩).preferred_version =
      some { version := "None", url := none } ∧
    (get_package_info "p" none ⟨0, noneVersionInfoText, "", true⟩).safe_versions =
      [{ version := "None", url := none }] ∧
    (get_package_info "p" none ⟨0, noneVersionInfoText, "", true⟩).deprecated_versions =
      ([] : List SpackVersionInfo) := by
  decide

/-- C4 (amended): how the three version sections treat their
continuation lines.  Only the deprecated-versions section skips a
literal `None` line (a); the safe-versions section turns it into a
version entry labelled `None` (c); the preferred-version section parses
the single following line unconditionally, so a `None` line there yields
the label `None` (covered by (e) with `v = "    None"`).  In every
section the first whitespace-separated token becomes the version label
and the second, when present, the source URL ((b), (d), (e)). -/
theorem C4_version_section_parsing
    (acc : List SpackVersionInfo) (s : String) (ls : List String)
    (fuel : Nat) (st : InfoParseState) (v : String) (rest : List String)
    (t0 : String) (ts : List String) :
    (contLine s = true → pyStrip s = "None" →
      (scanWhile contLine deprecatedVersionStep acc (s :: ls)).1 =
        (scanWhile contLine deprecatedVersionStep acc ls).1) ∧
    (contLine s = true → pyStrip s ≠ "" → pyStrip s ≠ "None" →
      pySplitWs (pyStrip s) = t0 :: ts →
      (scanWhile contLine deprecatedVersionStep acc (s :: ls)).1 =
        (scanWhile contLine deprecatedVersionStep
          (acc ++ [{ version := t0, url := ts.head? }]) ls).1) ∧
    (contLine s = true → pyStrip s = "None" →
      (scanWhile contLine safeVersionStep acc (s :: ls)).1 =
        (scanWhile contLine safeVersionStep
          (acc ++ [{ version := "None", url := none }]) ls).1) ∧
    (contLine s = true → pyStrip s ≠ "" →
      startsWithAny (pyStrip s) ["Deprecated versions:", "Variants:"] = false →
      pySplitWs (pyStrip s) = t0 :: ts →
      (scanWhile contLine safeVersionStep acc (s :: ls)).1 =
        (scanWhile contLine safeVersionStep
          (acc ++ [{ version := t0, url := ts.head? }]) ls).1) ∧
    (pyStrip v ≠ "" → pySplitWs (pyStrip v) = t0 :: ts →
      infoLoopGo (fuel + 1) st ("Preferred version:" :: v :: rest) =
        infoLoopGo fuel
          { st with preferred_version := some { version := t0, url := ts.head? } }
          rest) := by
  refine ⟨?_, ?_, ?_, ?_, ?_⟩
  · intro hc hn
    simp [scanWhile, hc, deprecatedVersionStep, hn]
  · intro hc hne hnn hsplit
    simp [scanWhile, hc, deprecatedVersionStep, hne, hnn, hsplit]
  · intro hc hn
    have e1 : (("None" : String) != "") = true := by decide
    have e2 : startsWithAny "None" ["Deprecated versions:", "Variants:"] = false := by
      decide
    have e3 : pySplitWs "None" = ["None"] := by decide
    simp [scanWhile, hc, safeVersionStep, hn, e1, e2, e3]
  · intro hc hne hsw hsplit
    simp [scanWhile, hc, safeVersionStep, hne, hsw, hsplit]
  · intro hv hsplit
    have e0 : pyStrip "Preferred version:" = "Preferred version:" := by decide
    have e1 : pyStartsWith "Preferred version:" "Description:" = false := by decide
    have e2 : pyStartsWith "Preferred version:" "Homepage:" = false := by decide
    have e3 : pyStartsWith "Preferred version:" "Preferred version:" = true := by decide
    simp [infoLoopGo, infoLineStep, preferredBranch, e0, e1, e2, e3, hv, hsplit]

/-- Witness for `C4_version_section_parsing`: a deprecated `None` line
skipped, a safe `None` line producing an entry labelled `None`, and a
preferred line parsed into label and URL. -/
theorem C4_version_section_parsing_witness :
    (scanWhile contLine deprecatedVersionStep [] ["    None"]).1 =
      (scanWhile contLine deprecatedVersionStep [] []).1 ∧
    (scanWhile contLine safeVersionStep [] ["    None"]).1 =
      (scanWhile contLine safeVersionStep [{ version := "None", url := none }] []).1 ∧
    infoLoopGo 1 {} ["Preferred version:", "    2.1.0    https://u"] =
      infoLoopGo 0
        { preferred_version := some { version := "2.1.0", url := some "https://u" } }
        [] := by
  have h := C4_version_section_parsing [] "    None" [] 0 {}
    "    2.1.0    https://u" [] "2.1.0" ["https://u"]
  refine ⟨h.1 (by decide) (by decide), ?_, ?_⟩
  · simpa using h.2.2.1 (by decide) (by decide)
  · simpa using h.2.2.2.2 (by decide) (by decide)

/-- The relationship `get_package_info` maintains between
`all_dependencies` and the three per-kind lists: exactly the names of
their union. -/
def DepInv (st : InfoParseState) : Prop :=
  ∀ d, d ∈ st.all_dependencies ↔
    (d ∈ st.build_dependencies ∨ d ∈ st.link_dependencies ∨ d ∈ st.run_dependencies)

/-- Helper: one dependency-section line extends both components of the
accumulator pair by the same names. -/
theorem dependencyStep_append (sec all : List String) (l : String) :
    ∃ ds, dependencyStep (sec, all) l = (sec ++ ds, all ++ ds) := by
  simp only [dependencyStep]
  split
  · exact ⟨pySplitWs (pyStrip l), rfl⟩
  · exact ⟨[], by simp⟩

/-- Helper: a whole dependency-section sub-scan extends both components
of the accumulator pair by the same names. -/
theorem scanWhile_dependencyStep_append (ls : List String) :
    ∀ sec all, ∃ new,
      (scanWhile contLine dependencyStep (sec, all) ls).1 = (sec ++ new, all ++ new) := by
  induction ls with
  | nil => intro sec all; exact ⟨[], by simp [scanWhile]⟩
  | cons l rest ih =>
    intro sec all
    by_cases hc : contLine l
    · obtain ⟨ds, hds⟩ := dependencyStep_append sec all l
      obtain ⟨new, hnew⟩ := ih (sec ++ ds) (all ++ ds)
      refine ⟨ds ++ new, ?_⟩
      simp [scanWhile, hc, hds, hnew]
    · exact ⟨[], by simp [scanWhile, hc]⟩

/-- Helper: a dependency-section branch extends its own list and
`all_dependencies` by the same names, hence preserves `DepInv`. -/
theorem buildDepsBranch_DepInv (st : InfoParseState) (rest : List String)
    (h : DepInv st) : DepInv (buildDepsBranch st rest).1 := by
  obtain ⟨new, hnew⟩ :=
    scanWhile_dependencyStep_append rest st.build_dependencies st.all_dependencies
  intro d
  have hd := h d
  simp only [buildDepsBranch, hnew]
  simp only [List.mem_append]
  constructor
  · rintro (ha | hn)
    · rcases (hd.mp ha) with hb | hl | hr
      · exact Or.inl (Or.inl hb)
      · exact Or.inr (Or.inl hl)
      · exact Or.inr (Or.inr hr)
    · exact Or.inl (Or.inr hn)
  · rintro ((hb | hn) | hl | hr)
    · exact Or.inl (hd.mpr (Or.inl hb))
    · exact Or.inr hn
    · exact Or.inl (hd.mpr (Or.inr (Or.inl hl)))
    · exact Or.inl (hd.mpr (Or.inr (Or.inr hr)))

/-- Helper: same for the Link-Dependencies branch. -/
theorem linkDepsBranch_DepInv (st : InfoParseState) (rest : List String)
    (h : DepInv st) : DepInv (linkDepsBranch st rest).1 := by
  obtain ⟨new, hnew⟩ :=
    scanWhile_dependencyStep_append rest st.link_dependencies st.all_dependencies
  intro d
  have hd := h d
  simp only [linkDepsBranch, hnew]
  simp only [List.mem_append]
  constructor
  · rintro (ha | hn)
    · rcases (hd.mp ha) with hb | hl | hr
      · exact Or.inl hb
      · exact Or.inr (Or.inl (Or.inl hl))
      · exact Or.inr (Or.inr hr)
    · exact Or.inr (Or.inl (Or.inr hn))
  · rintro (hb | (hl | hn) | hr)
    · exact Or.inl (hd.mpr (Or.inl hb))
    · exact Or.inl (hd.mpr (Or.inr (Or.inl hl)))
    · exact Or.inr hn
    · exact Or.inl (hd.mpr (Or.inr (Or.inr hr)))

/-- Helper: same for the Run-Dependencies branch. -/
theorem runDepsBranch_DepInv (st : InfoParseState) (rest : List String)
    (h : DepInv st) : DepInv (runDepsBranch st rest).1 := by
  obtain ⟨new, hnew⟩ :=
    scanWhile_dependencyStep_append rest st.run_dependencies st.all_dependencies
  intro d
  have hd := h d
  simp only [runDepsBranch, hnew]
  simp only [List.mem_append]
  constructor
  · rintro (ha | hn)
    · rcases (hd.mp ha) with hb | hl | hr
      · exact Or.inl hb
      · exact Or.inr (Or.inl hl)
      · exact Or.inr (Or.inr (Or.inl hr))
    · exact Or.inr (Or.inr (Or.inr hn))
  · rintro (hb | hl | hr | hn)
    · exact Or.inl (hd.mpr (Or.inl hb))
    · exact Or.inl (hd.mpr (Or.inr (Or.inl hl)))
    · exact Or.inl (hd.mpr (Or.inr (Or.inr hr)))
    · exact Or.inr hn

set_option maxHeartbeats 1600000 in
/-- Helper: every branch of the parsing loop body preserves `DepInv`
(the three dependency branches extend a per-kind list and
`all_dependencies` by the same names; no other branch touches any of the
four lists). -/
theorem infoLineStep_DepInv (st : InfoParseState) (l : String) (rest : List String)
    (h : DepInv st) : DepInv (infoLineStep st l rest).1 := by
  simp only [infoLineStep]
  split_ifs with h1 h2 h3 h4 h5 h6 h7 h8 h9 h10
  · intro d; simpa [descriptionBranch] using h d
  · intro d; simpa using h d
  · rcases rest with _ | ⟨vl, rest2⟩
    · intro d; simpa [preferredBranch] using h d
    · simp only [preferredBranch]
      split
      · split
        · intro d; simpa using h d
        · intro d; simpa using h d
      · intro d; simpa using h d
  · intro d; simpa [safeVersionsBranch] using h d
  · intro d; simpa [deprecatedVersionsBranch] using h d
  · intro d; simpa [variantsBranch] using h d
  · exact buildDepsBranch_DepInv st rest h
  · exact linkDepsBranch_DepInv st rest h
  · exact runDepsBranch_DepInv st rest h
  · simp only [licensesBranch]
    split
    · intro d; simpa using h d
    · rcases rest with _ | ⟨nl, rest2⟩
      · intro d; simpa using h d
      · dsimp only
        split
        · intro d; simpa using h d
        · intro d; simpa using h d
  · intro d; simpa using h d

/-- Helper: the whole parsing loop preserves `DepInv`. -/
theorem infoLoopGo_DepInv (fuel : Nat) :
    ∀ st ls, DepInv st → DepInv (infoLoopGo fuel st ls) := by
  induction fuel with
  | zero => intro st ls h; simpa [infoLoopGo] using h
  | succ fuel ih =>
    intro st ls h
    cases ls with
    | nil => simpa [infoLoopGo] using h
    | cons l rest =>
        simp only [infoLoopGo]
        exact ih _ _ (infoLineStep_DepInv st l rest h)

/-- C10: in every descriptor returned by `get_package_info`, the
backward-compatibility `dependencies` field holds exactly the distinct
names of the union of the build, link and run dependency lists, with no
duplicates (`list(set(...))`, whose ordering the claim leaves
unspecified, is modelled by `List.dedup`). -/
theorem C10_dependencies_union (package_name : String) (version : Option String)
    (result : ExecResult) :
    (get_package_info package_name version result).dependencies.Nodup ∧
    ∀ d, d ∈ (get_package_info package_name version result).dependencies ↔
      (d ∈ (get_package_info package_name version result).build_dependencies ∨
       d ∈ (get_package_info package_name version result).link_dependencies ∨
       d ∈ (get_package_info package_name version result).run_dependencies) := by
  unfold get_package_info
  split
  · constructor
    · simp
    · intro d; simp
  · dsimp only
    refine ⟨List.nodup_dedup _, fun d => ?_⟩
    rw [List.mem_dedup]
    refine infoLoopGo_DepInv _ _ _ ?_ d
    rcases hsp : pySplitOn result.stdout "\n" with _ | ⟨l0, rest⟩
    · intro x; simp
    · dsimp only
      split <;> (intro x; simp)

/-- C5 (amended): an unresolvable session identifier causes no process
activity.  On the streaming path the only possible event sequence —
independent of any process behavior, i.e. no process is spawned — is one
start event followed by one structured error event; on the non-streaming
path the re-raised `ValueError` propagates out of `_run_spack_command`
(again for every process oracle), so the caller receives the exception
rather than a structured success/failure record. -/
theorem C5_session_error_behavior (st : SessionStore) (s : String)
    (hsid : s ≠ "") (hun : get_session_dir st s = none) :
    (∀ runBase spack_cmd command,
        run_spack_command st runBase spack_cmd command (some s) =
          .error ("Session " ++ s ++ " not found")) ∧
    (∀ fs spack_cmd pkg ver vars beh,
        InstallStreamEvents fs st spack_cmd pkg ver vars (some s) beh
          [installStartEvent pkg ver vars (some s),
           installOutputEvent pkg ver "error"
             ("Session error: " ++ ("Session " ++ s ++ " not found"))]) ∧
    (∀ fs spack_cmd pkg ver vars beh ev,
        InstallStreamEvents fs st spack_cmd pkg ver vars (some s) beh ev →
          ev = [installStartEvent pkg ver vars (some s),
                installOutputEvent pkg ver "error"
                  ("Session error: " ++ ("Session " ++ s ++ " not found"))]) := by
  have hb : (s == "") = false := by simpa using hsid
  have hcmd : ∀ spack_cmd spec, installCommand st spack_cmd spec (some s) =
      .error ("Session " ++ s ++ " not found") := by
    intro spack_cmd spec
    simp [installCommand, isTruthy, hb, get_singularity_command_parts, hun]
  refine ⟨?_, ?_, ?_⟩
  · intro runBase spack_cmd command
    simp [run_spack_command, effective_command, isTruthy, hb,
      get_singularity_command_parts, hun]
  · intro fs spack_cmd pkg ver vars beh
    exact .sessionError _ beh (hcmd _ _)
  · intro fs spack_cmd pkg ver vars beh ev hev
    cases hev with
    | sessionError e beh' hcm =>
        have he : ("Session " ++ s ++ " not found") = e :=
          Except.error.inj ((hcmd _ _).symm.trans hcm)
        rw [← he]
    | spawnError c msg hcm =>
        rw [hcmd] at hcm
        exact Except.noConfusion hcm
    | completed c outs errs rc mid hcm hint =>
        rw [hcmd] at hcm
        exact Except.noConfusion hcm

/-- Witness for `C5_session_error_behavior` at the unknown session id
`deadbeef` in an empty store. -/
theorem C5_session_error_behavior_witness :
    run_spack_command emptySessionStore
      (fun _ => run_command_base 300 (.completed 0 "" "")) "/opt/spack/bin/spack"
      ["/opt/spack/bin/spack", "find"] (some "deadbeef") =
      .error ("Session " ++ "deadbeef" ++ " not found") ∧
    InstallStreamEvents fsAllMissing emptySessionStore "/opt/spack/bin/spack" "zlib"
      none [] (some "deadbeef") (.run ["line"] [] 0)
      [installStartEvent "zlib" none [] (some "deadbeef"),
       installOutputEvent "zlib" none "error"
         ("Session error: " ++ ("Session " ++ "deadbeef" ++ " not found"))] := by
  have h := C5_session_error_behavior emptySessionStore "deadbeef" (by decide) (by rfl)
  exact ⟨h.1 _ _ _, h.2.1 fsAllMissing _ _ _ _ _⟩

/-- Helper: filtering distributes over an interleaving. -/
theorem interleave_filter_length {α} (p : α → Bool) :
    ∀ {xs ys zs : List α}, Interleave xs ys zs →
      (zs.filter p).length = (xs.filter p).length + (ys.filter p).length := by
  intro xs ys zs h
  induction h with
  | nil => simp
  | left x h ih =>
      by_cases hp : p x <;> simp [List.filter_cons, hp, ih] <;> omega
  | right y h ih =>
      by_cases hp : p y <;> simp [List.filter_cons, hp, ih] <;> omega

/-- Helper: length of a filter over a mapped list whose predicate is
constant on the image. -/
theorem length_filter_map_const {α : Type} (f : String → α) (g : α → Bool) (b : Bool)
    (hf : ∀ x, g (f x) = b) (l : List String) :
    ((l.map f).filter g).length = if b then l.length else 0 := by
  induction l with
  | nil => cases b <;> simp
  | cons x xs ih => cases b <;> simp_all [List.filter_cons, hf]

/-- The type field of an install output/error-channel event. -/
@[simp] theorem installOutputEvent_type (pkg : String) (ver : Option String)
    (t ln : String) : (installOutputEvent pkg ver t ln).type = t := rfl

/-- The type field of a validation output/error-channel event. -/
@[simp] theorem validateOutputEvent_type (pkg pt t ln : String) :
    (validateOutputEvent pkg pt t ln).type = t := rfl

/-- Helper: event-type counts of the middle section of an install
stream. -/
theorem install_mid_counts (pkg : String) (ver : Option String)
    (outs errs : List String) (mid : List SpackInstallStreamResult)
    (h : Interleave (outs.map (installOutputEvent pkg ver "output"))
         (errs.map (installOutputEvent pkg ver "error")) mid) :
    countInstallType mid "output" = outs.length ∧
    countInstallType mid "error" = errs.length ∧
    countInstallType mid "start" = 0 ∧
    countInstallType mid "complete" = 0 := by
  have hcount : ∀ (t : String) (bo be : Bool),
      (∀ x, ((installOutputEvent pkg ver "output" x).type == t) = bo) →
      (∀ x, ((installOutputEvent pkg ver "error" x).type == t) = be) →
      countInstallType mid t =
        (if bo then outs.length else 0) + (if be then errs.length else 0) := by
    intro t bo be ho he
    simp only [countInstallType]
    rw [interleave_filter_length _ h,
      length_filter_map_const (installOutputEvent pkg ver "output")
        (fun e => e.type == t) bo ho outs,
      length_filter_map_const (installOutputEvent pkg ver "error")
        (fun e => e.type == t) be he errs]
  refine ⟨?_, ?_, ?_, ?_⟩
  · rw [hcount "output" true false (fun x => rfl) (fun x => rfl)]; simp
  · rw [hcount "error" false true (fun x => rfl) (fun x => rfl)]; simp
  · rw [hcount "start" false false (fun x => rfl) (fun x => rfl)]; simp
  · rw [hcount "complete" false false (fun x => rfl) (fun x => rfl)]; simp

/-- Helper: the same for a validation stream. -/
theorem validate_mid_counts (pkg pt : String)
    (outs errs : List String) (mid : List SpackValidationStreamResult)
    (h : Interleave (outs.map (validateOutputEvent pkg pt "output"))
         (errs.map (validateOutputEvent pkg pt "error")) mid) :
    countValidateType mid "output" = outs.length ∧
    countValidateType mid "error" = errs.length ∧
    countValidateType mid "start" = 0 ∧
    countValidateType mid "complete" = 0 := by
  have hcount : ∀ (t : String) (bo be : Bool),
      (∀ x, ((validateOutputEvent pkg pt "output" x).type == t) = bo) →
      (∀ x, ((validateOutputEvent pkg pt "error" x).type == t) = be) →
      countValidateType mid t =
        (if bo then outs.length else 0) + (if be then errs.length else 0) := by
    intro t bo be ho he
    simp only [countValidateType]
    rw [interleave_filter_length _ h,
      length_filter_map_const (validateOutputEvent pkg pt "output")
        (fun e => e.type == t) bo ho outs,
      length_filter_map_const (validateOutputEvent pkg pt "error")
        (fun e => e.type == t) be he errs]
  refine ⟨?_, ?_, ?_, ?_⟩
  · rw [hcount "output" true false (fun x => rfl) (fun x => rfl)]; simp
  · rw [hcount "error" false true (fun x => rfl) (fun x => rfl)]; simp
  · rw [hcount "start" false false (fun x => rfl) (fun x => rfl)]; simp
  · rw [hcount "complete" false false (fun x => rfl) (fun x => rfl)]; simp

/-- Helper: appending is one particular interleaving. -/
theorem interleave_append {α} : ∀ (xs ys : List α), Interleave xs ys (xs ++ ys) := by
  intro xs ys
  induction xs with
  | nil =>
      induction ys with
      | nil => exact .nil
      | cons y ys ih => exact .right y ih
  | cons x xs ih => exact .left x ih

/-- Helper: event count of a `start :: mid ++ [terminal]` sequence. -/
theorem countInstallType_cons_append (a c : SpackInstallStreamResult)
    (mid : List SpackInstallStreamResult) (t : String) :
    countInstallType (a :: (mid ++ [c])) t =
      (if a.type == t then 1 else 0) + countInstallType mid t +
      (if c.type == t then 1 else 0) := by
  simp only [countInstallType, List.filter_cons, List.filter_append]
  by_cases h1 : (a.type == t) = true <;> by_cases h2 : (c.type == t) = true <;>
    simp [h1, h2, List.filter_cons] <;> omega

/-- Helper: the validation-stream version. -/
theorem countValidateType_cons_append (a c : SpackValidationStreamResult)
    (mid : List SpackValidationStreamResult) (t : String) :
    countValidateType (a :: (mid ++ [c])) t =
      (if a.type == t then 1 else 0) + countValidateType mid t +
      (if c.type == t then 1 else 0) := by
  simp only [countValidateType, List.filter_cons, List.filter_append]
  by_cases h1 : (a.type == t) = true <;> by_cases h2 : (c.type == t) = true <;>
    simp [h1, h2, List.filter_cons] <;> omega

/-- C6: every install-stream event sequence begins with exactly one
start event and terminates with exactly one terminal event: a complete
event carrying success iff the exit code is zero (with the middle
output/error-channel events in one-to-one correspondence with the
process's stdout/stderr lines), or a single error event on session or
spawn failure.  The same holds for validate streams whose load-spec
construction succeeds (third conjunct, with `raised = false`).  The
final two conjuncts exhibit the code bug: a validate invocation with a
package type outside {python, r, other} and no installation digest
raises `KeyError` at `prefixes[package_type]` (spack_service.py:1903)
after yielding only the start event, so its sequence has no terminal
event at all. -/
theorem C6_stream_event_shape :
    (∀ fs st spack_cmd pkg ver vars sid beh ev,
        InstallStreamEvents fs st spack_cmd pkg ver vars sid beh ev →
          ev.head?.map (fun e => e.type) = some "start" ∧
          countInstallType ev "start" = 1 ∧
          ∃ e, ev.getLast? = some e ∧
            ((e.type = "complete" ∧ countInstallType ev "complete" = 1 ∧
               ∃ outs errs rc, beh = .run outs errs rc ∧
                 countInstallType ev "output" = outs.length ∧
                 countInstallType ev "error" = errs.length ∧
                 e.success = some (rc == 0)) ∨
             (e.type = "error" ∧ countInstallType ev "error" = 1 ∧
              countInstallType ev "complete" = 0))) ∧
    (∀ st pkg pt digest custom sid beh ev raised ls,
        ValidateStreamEvents st pkg pt digest custom sid beh ev raised →
          validateLoadSpec pt digest pkg = .ok ls →
          raised = false ∧
          ev.head?.map (fun e => e.type) = some "start" ∧
          countValidateType ev "start" = 1 ∧
          ∃ e, ev.getLast? = some e ∧
            ((e.type = "complete" ∧ countValidateType ev "complete" = 1 ∧
               ∃ outs errs rc, beh = .run outs errs rc ∧
                 countValidateType ev "output" = outs.length ∧
                 countValidateType ev "error" = errs.length ∧
                 e.success = some (rc == 0)) ∨
             (e.type = "error" ∧ countValidateType ev "error" = 1 ∧
              countValidateType ev "complete" = 0))) ∧
    (∀ st beh, ValidateStreamEvents st "pkg" "perl" none none none beh
        [validateStartEvent "pkg" "perl" none] true) ∧
    (∀ st beh ev raised,
        ValidateStreamEvents st "pkg" "perl" none none none beh ev raised →
          raised = true ∧ ev = [validateStartEvent "pkg" "perl" none] ∧
          ∀ e, ev.getLast? = some e → e.type ≠ "complete" ∧ e.type ≠ "error") := by
  refine ⟨?_, ?_, ?_, ?_⟩
  · intro fs st spack_cmd pkg ver vars sid beh ev hev
    cases hev with
    | sessionError e beh' hcm =>
        exact ⟨rfl, rfl, _, rfl, Or.inr ⟨rfl, rfl, rfl⟩⟩
    | spawnError c msg hcm =>
        exact ⟨rfl, rfl, _, rfl, Or.inr ⟨rfl, rfl, rfl⟩⟩
    | completed c outs errs rc mid hcm hint =>
        have hm := install_mid_counts pkg ver outs errs mid hint
        refine ⟨rfl, ?_, installCompleteEvent fs pkg ver vars rc (mid.map (fun e => e.data)), ?_, ?_⟩
        · rw [countInstallType_cons_append, hm.2.2.1]
          show 1 + 0 + 0 = 1
          rfl
        · rw [← List.cons_append, List.getLast?_concat]
        · refine Or.inl ⟨rfl, ?_, outs, errs, rc, rfl, ?_, ?_, rfl⟩
          · rw [countInstallType_cons_append, hm.2.2.2]
            show 0 + 0 + 1 = 1
            rfl
          · rw [countInstallType_cons_append, hm.1]
            show 0 + outs.length + 0 = outs.length
            omega
          · rw [countInstallType_cons_append, hm.2.1]
            show 0 + errs.length + 0 = errs.length
            omega
  · intro st pkg pt digest custom sid beh ev raised ls hev hls
    cases hev with
    | keyError beh' e he =>
        rw [hls] at he
        exact Except.noConfusion he
    | sessionError ls' e beh' hok hcmd =>
        exact ⟨rfl, rfl, rfl, _, rfl, Or.inr ⟨rfl, rfl, rfl⟩⟩
    | spawnError ls' c msg hok hcmd =>
        exact ⟨rfl, rfl, rfl, _, rfl, Or.inr ⟨rfl, rfl, rfl⟩⟩
    | completed ls' c outs errs rc mid hok hcmd hint =>
        have hm := validate_mid_counts pkg pt outs errs mid hint
        refine ⟨rfl, rfl, ?_, validateCompleteEvent pkg pt rc c, ?_, ?_⟩
        · rw [countValidateType_cons_append, hm.2.2.1]
          show 1 + 0 + 0 = 1
          rfl
        · rw [← List.cons_append, List.getLast?_concat]
        · refine Or.inl ⟨rfl, ?_, outs, errs, rc, rfl, ?_, ?_, rfl⟩
          · rw [countValidateType_cons_append, hm.2.2.2]
            show 0 + 0 + 1 = 1
            rfl
          · rw [countValidateType_cons_append, hm.1]
            show 0 + outs.length + 0 = outs.length
            omega
          · rw [countValidateType_cons_append, hm.2.1]
            show 0 + errs.length + 0 = errs.length
            omega
  · intro st beh
    exact .keyError beh "perl" rfl
  · intro st beh ev raised hev
    cases hev with
    | keyError beh' e he =>
        refine ⟨rfl, rfl, ?_⟩
        intro e' hlast
        have he' : validateStartEvent "pkg" "perl" none = e' := by
          simpa using hlast
        rw [← he']
        exact ⟨by decide, by decide⟩
    | sessionError ls e beh' hok hcmd => exact Except.noConfusion hok
    | spawnError ls c msg hok hcmd => exact Except.noConfusion hok
    | completed ls c outs errs rc mid hok hcmd hint => exact Except.noConfusion hok

/-- Witness for `C6_stream_event_shape`: the spec's concrete example — a
process writing 3 stdout lines and 1 stderr line then exiting 0 yields
exactly 1 start, 3 output, 1 error-channel and 1 complete event with
success true; and the failing validate input produces only a start
event and raises. -/
theorem C6_stream_event_shape_witness :
    exInstallEvents.head?.map (fun e => e.type) = some "start" ∧
    countInstallType exInstallEvents "start" = 1 ∧
    countInstallType exInstallEvents "output" = 3 ∧
    countInstallType exInstallEvents "error" = 1 ∧
    countInstallType exInstallEvents "complete" = 1 ∧
    exInstallEvents.getLast?.map (fun e => e.success) = some (some true) ∧
    ValidateStreamEvents emptySessionStore "pkg" "perl" none none none
      (.run exOuts exErrs 0) [validateStartEvent "pkg" "perl" none] true := by
  have h := C6_stream_event_shape.1 fsAllMissing emptySessionStore
    "/opt/spack/bin/spack" "zlib" none [] none (.run exOuts exErrs 0) exInstallEvents
    (.completed _ exOuts exErrs 0 exMid rfl (interleave_append _ _))
  exact ⟨h.1, h.2.1, by decide, by decide, by decide, by decide,
    C6_stream_event_shape.2.2.1 emptySessionStore _⟩

/-- Helper: the seen-set deduplication produces a duplicate-free list
whose members avoid the seen set. -/
theorem dedupKeepFirst_spec (l : List String) : ∀ seen : List String,
    (dedupKeepFirst seen l).Nodup ∧ ∀ x ∈ dedupKeepFirst seen l, x ∉ seen := by
  induction l with
  | nil => intro seen; simp [dedupKeepFirst]
  | cons a l ih =>
    intro seen
    by_cases h : a ∈ seen
    · simpa [dedupKeepFirst, h] using ih seen
    · obtain ⟨hnd, hmem⟩ := ih (a :: seen)
      simp only [dedupKeepFirst, h, if_false]
      constructor
      · refine List.Nodup.cons ?_ hnd
        intro hmem_a
        exact (hmem a hmem_a) (List.mem_cons_self a _)
      · intro x hx
        rcases List.mem_cons.mp hx with rfl | hx
        · exact h
        · intro hxs
          exact (hmem x hx) (List.mem_cons_of_mem a hxs)

/-- Helper: a candidate contributes nothing exactly when it does not
exist on the filesystem (an existing candidate always contributes,
either its content or the read-error placeholder). -/
theorem logEntry_eq_none_iff (fs : FileSystem) (p : String) :
    logEntry fs p = none ↔ fs.fileExists p = false := by
  by_cases h : fs.fileExists p = true
  · simp only [logEntry, h, if_true]
    cases hr : fs.readResult p <;> simp [h]
  · have h' : fs.fileExists p = false := by simpa using h
    simp [logEntry, h']

/-- Helper: the collector returns `none` exactly when no candidate
exists on disk. -/
theorem collect_none_iff (fs : FileSystem) (out : String) :
    collect_build_logs_from_output fs out = none ↔
      ∀ q ∈ buildLogCandidates fs out, fs.fileExists q = false := by
  have hsplit : collect_build_logs_from_output fs out = none ↔
      ((buildLogCandidates fs out).filterMap (logEntry fs)).isEmpty = true := by
    simp only [collect_build_logs_from_output]
    split
    · rename_i ht
      simp [ht]
    · rename_i hne
      simp [hne]
  rw [hsplit, List.isEmpty_iff, List.filterMap_eq_nil_iff]
  constructor
  · intro h q hq
    exact (logEntry_eq_none_iff fs q).mp (h q hq)
  · intro h q hq
    exact (logEntry_eq_none_iff fs q).mpr (h q hq)

/-- C8 counterexample: failure output referencing one stage directory
whose log file does not exist.  One candidate is discovered, but the
collector returns `none` — non-existent candidates are skipped silently
(spack_service.py:354/363-364 gates on `log_file.exists()` and only
logs the miss), so `none` is returned whenever no candidate exists, not
only when zero candidates were found, and no placeholder is produced
for the unreadable (non-existent) candidate. -/
theorem C8_skip_missing_counterexample :
    buildLogCandidates fsAllMissing oneStageOutput =
      ["/tmp/s1/spack-stage/spack-stage-pkg-abc123/spack-build-out.txt"] ∧
    collect_build_logs_from_output fsAllMissing oneStageOutput = none := by
  exact ⟨by decide, by decide⟩

/-- C8 (amended): candidate log paths are deduplicated preserving
discovery order; each *existing* readable candidate contributes its
content preceded by a header with its path, an existing-but-unreadable
candidate contributes an error placeholder, and a non-existent candidate
contributes nothing (it is only logged); the results are concatenated
with blank-line separators, and the collector returns `none` exactly
when no discovered candidate exists on disk (in particular when zero
candidates are found); it never raises (total function).  The closing
conjunct is the spec's two-readable-logs example. -/
theorem C8_build_log_collector (fs : FileSystem) (out : String) (p c e : String) :
    (buildLogCandidates fs out).Nodup ∧
    (collect_build_logs_from_output fs out = none ↔
      ∀ q ∈ buildLogCandidates fs out, fs.fileExists q = false) ∧
    (fs.fileExists p = true → fs.readResult p = .ok c →
      logEntry fs p = some ("===== " ++ p ++ " =====\n" ++ c)) ∧
    (fs.fileExists p = true → fs.readResult p = .error e →
      logEntry fs p = some ("===== " ++ p ++ " (error reading: " ++ e ++ ") =====\n")) ∧
    (fs.fileExists p = false → logEntry fs p = none) ∧
    collect_build_logs_from_output fsTwoLogs twoStageOutput =
      some ("===== /tmp/s1/spack-stage/spack-stage-pkg-abc123/spack-build-out.txt =====\nfirst log\n\n===== /tmp/s1/spack-stage/spack-stage-dep-def456/spack-build-out.txt =====\nsecond log") := by
  refine ⟨?_, collect_none_iff fs out, ?_, ?_, ?_, by decide⟩
  · exact (dedupKeepFirst_spec _ []).1
  · intro hex hok
    simp [logEntry, hex, hok]
  · intro hex herr
    simp [logEntry, hex, herr]
  · intro hex
    exact (logEntry_eq_none_iff fs p).mpr hex

/-- Witness for `C8_build_log_collector`: the two-readable-logs
filesystem, with the per-candidate facts discharged at the first
candidate path. -/
theorem C8_build_log_collector_witness :
    (buildLogCandidates fsTwoLogs twoStageOutput).Nodup ∧
    logEntry fsTwoLogs "/tmp/s1/spack-stage/spack-stage-pkg-abc123/spack-build-out.txt" =
      some ("===== /tmp/s1/spack-stage/spack-stage-pkg-abc123/spack-build-out.txt =====\nfirst log") ∧
    logEntry fsAllMissing "/tmp/x" = none := by
  have h := C8_build_log_collector fsTwoLogs twoStageOutput
    "/tmp/s1/spack-stage/spack-stage-pkg-abc123/spack-build-out.txt" "first log" ""
  have h2 := C8_build_log_collector fsAllMissing oneStageOutput "/tmp/x" "" ""
  exact ⟨h.1, by simpa using h.2.2.1 (by rfl) (by rfl),
    h2.2.2.2.2.1 (by rfl)⟩

end Softpack
